import Mathlib

set_option maxRecDepth 10000

/-!
# Verification of the jquery.scrollable position-normalization engine

Shallow embedding of the normalization/resolution core (the `norm` module) of
the repository.  JavaScript numbers are modelled as rationals (all arithmetic
performed by the code on the inputs considered here is exact), machine
`undefined`/`null`/booleans as explicit constructors of `JsValue`, objects as
ordered association lists where a later entry for a key shadows an earlier
one (JavaScript assignment order), and thrown errors as `Except.error` with a
constructor per throw site.

External collaborators (the `lib` measurement helpers backed by the DOM, the
queue wrapper, and the jQuery/host primitives `parseFloat`, `$.isNumeric`,
`$.extend`) are modelled from the spec's interface descriptions; everything
else is translated from the source file of the `norm` module.
-/

deriving instance DecidableEq for Except

/-- A primitive JavaScript value as it can appear as a position value, an
option value, or a hash entry.  `nan` stands for the IEEE NaN produced by a
failed `parseFloat`. -/
inductive JsValue where
  | num (q : ℚ)
  | str (s : String)
  | boolean (b : Bool)
  | undef
  | null
  | nan
deriving DecidableEq

/-- A JavaScript object, as an ordered list of property assignments; a later
assignment to a key shadows an earlier one. -/
abbrev JsObj := List (String × JsValue)

/-- Property lookup with an explicit default: fold the assignment list from
oldest to newest, the last assignment to the key wins. -/
def objGetD (l : JsObj) (k : String) (d : JsValue) : JsValue :=
  l.foldl (fun acc kv => if kv.1 = k then kv.2 else acc) d

/-- Property lookup on a JavaScript object; a missing key reads `undefined`. -/
def objGet (l : JsObj) (k : String) : JsValue :=
  objGetD l k JsValue.undef

/-- JavaScript truthiness of a primitive value. -/
def truthy : JsValue → Bool
  | JsValue.num q => decide (q ≠ 0)
  | JsValue.str s => decide (s ≠ "")
  | JsValue.boolean b => b
  | _ => false

/-- Modelled from jQuery `$.extend(target, source)` semantics as used by the
source: copy every property of `source` whose value is not `undefined` onto a
copy of `target`. -/
def jsExtend (base src : JsObj) : JsObj :=
  base ++ src.filter (fun kv => decide (kv.2 ≠ JsValue.undef))

namespace norm

/-- canonical name for the vertical axis -/
def VERTICAL : String := "vertical"

/-- canonical name for the horizontal axis -/
def HORIZONTAL : String := "horizontal"

/-- canonical name for both axes -/
def BOTH_AXES : String := "both"

/-- scroll position value signalling that the axis should not be scrolled -/
def IGNORE_AXIS : ℚ := -999

/-- "replace" mode flag for chained scrollTo calls -/
def MODE_REPLACE : String := "replace"

/-- "append" mode flag for chained scrollTo calls -/
def MODE_APPEND : String := "append"

/-- "merge" mode flag for chained scrollTo calls -/
def MODE_MERGE : String := "merge"

/-- default queue name from `norm.defaults` -/
def defaultQueue : String := "internal.jquery.scrollable"

/-- default scroll options (`norm.defaults`) -/
def defaults : JsObj :=
  [("axis", JsValue.str VERTICAL), ("queue", JsValue.str defaultQueue)]

end norm

/-- The position argument of `normalizePosition`: either a primitive value or
a plain-object hash (`$.isPlainObject` distinguishes the two). -/
inductive Position where
  | prim (v : JsValue)
  | hash (entries : JsObj)
deriving DecidableEq

/-- The `Coordinates` result hash: one resolved scroll position per axis
(either an absolute pixel value or the `IGNORE_AXIS` sentinel). -/
structure Coordinates where
  horizontal : ℚ
  vertical : ℚ
deriving DecidableEq

/-- Modelled from the spec: one entry of `QueueView.snapshot` — a partial
`ResolvedCoordinates` with either axis possibly absent (`undefined`). -/
structure PartialCoords where
  horizontal : Option ℚ
  vertical : Option ℚ
deriving DecidableEq

/-- Modelled from the spec: the ordered snapshot returned by
`queueWrapper.getInfo()`, oldest first; `none` models an info entry whose
`position` property is absent (the `if (info.position)` guard). -/
abbrev Snapshot := List (Option PartialCoords)

/-- Modelled from the spec: the container surface as probed by `RangeProbe` —
live scroll offsets and maximum scrollable extents per axis. -/
structure Container where
  scrollLeft : ℚ
  scrollTop : ℚ
  maxH : ℚ
  maxV : ℚ
deriving DecidableEq

/-- Modelled from the spec: `RangeProbe.maxPosition` (`lib.getScrollMaximum`
restricted to a single axis, as every call in the resolution engine is). -/
def getScrollMaximum (c : Container) (axis : String) : ℚ :=
  if axis = norm.HORIZONTAL then c.maxH else c.maxV

/-- Returns the current scroll position for a container on a given axis
(`$container.scrollLeft()` / `$container.scrollTop()` are the RangeProbe's
live offsets). -/
def getCurrentScrollPosition (c : Container) (axis : String) : ℚ :=
  if axis = norm.HORIZONTAL then c.scrollLeft else c.scrollTop

/-- Read a slot of a `Coordinates` pair by axis name. -/
def getCoord (coords : Coordinates) (axis : String) : ℚ :=
  if axis = norm.HORIZONTAL then coords.horizontal else coords.vertical

/-- The pair produced by the single-axis branch: the addressed axis carries
the value, the other axis is set to `IGNORE_AXIS`. -/
def mkPair (axis : String) (value : ℚ) : Coordinates :=
  if axis = norm.HORIZONTAL then ⟨value, norm.IGNORE_AXIS⟩
  else ⟨norm.IGNORE_AXIS, value⟩

/-- The other axis (`axis === norm.HORIZONTAL ? norm.VERTICAL : norm.HORIZONTAL`). -/
def otherAxis (axis : String) : String :=
  if axis = norm.HORIZONTAL then norm.VERTICAL else norm.HORIZONTAL

/-! ## Host string primitives -/

/-- JavaScript `s.slice(0, n)` for `n ≥ 0`. -/
def strTake (s : String) (n : ℕ) : String :=
  String.mk (s.data.take n)

/-- JavaScript `s.slice(n)` for `n ≥ 0`. -/
def strDrop (s : String) (n : ℕ) : String :=
  String.mk (s.data.drop n)

/-- JavaScript `s.slice(-n)`: the last `n` characters (the whole string when
it is shorter than `n`). -/
def strSliceNeg (s : String) (n : ℕ) : String :=
  String.mk (s.data.drop (s.data.length - n))

/-- JavaScript `s.slice(0, -n)`: everything but the last `n` characters. -/
def strDropLast (s : String) (n : ℕ) : String :=
  String.mk (s.data.take (s.data.length - n))

/-- JavaScript `s.toLowerCase()` (ASCII case folding suffices for every
string the engine compares). -/
def jsToLower (s : String) : String :=
  String.mk (s.data.map Char.toLower)

/-- JavaScript `Math.round`: round half toward positive infinity. -/
def jsRound (q : ℚ) : ℤ :=
  ⌊q + 1 / 2⌋

/-- Consume a maximal run of decimal digits, returning their values and the
rest of the input. -/
def takeDigits : List Char → List ℕ × List Char
  | [] => ([], [])
  | ch :: rest =>
    if ch.isDigit then
      let (ds, r) := takeDigits rest
      ((ch.toNat - 48) :: ds, r)
    else ([], ch :: rest)

/-- The rational denoted by a digit run read as an integer part. -/
def digitsToRat (ds : List ℕ) : ℚ :=
  ds.foldl (fun a d => a * 10 + (d : ℚ)) 0

/-- The rational denoted by a digit run read as a fractional part. -/
def fracDigitsToRat (ds : List ℕ) : ℚ :=
  ds.foldr (fun d acc => ((d : ℚ) + acc) / 10) 0

/-- Multiply by the `n`-th power of ten. -/
def mulPow10 (q : ℚ) : ℕ → ℚ
  | 0 => q
  | n + 1 => mulPow10 (q * 10) n

/-- Divide by the `n`-th power of ten. -/
def divPow10 (q : ℚ) : ℕ → ℚ
  | 0 => q
  | n + 1 => divPow10 (q / 10) n

/-- The natural number denoted by a digit run. -/
def digitsToNat (ds : List ℕ) : ℕ :=
  ds.foldl (fun a d => a * 10 + d) 0

/-- Modelled from JavaScript `parseFloat` applied after the leading
whitespace: parse `[sign] digits [. digits] [e [sign] digits]` as a longest
prefix, returning the value and the unconsumed rest; `none` when no digit
occurs before the exponent part (the NaN case). -/
def parseFloatCore (l : List Char) : Option (ℚ × List Char) :=
  let (neg, l1) :=
    match l with
    | '-' :: r => (true, r)
    | '+' :: r => (false, r)
    | _ => (false, l)
  let (ids, l2) := takeDigits l1
  let (fds, l3) :=
    match l2 with
    | '.' :: r => takeDigits r
    | _ => (([] : List ℕ), l2)
  if ids.isEmpty ∧ fds.isEmpty then none
  else
    let mant : ℚ := digitsToRat ids + fracDigitsToRat fds
    let mant : ℚ := if neg then -mant else mant
    match l3 with
    | e :: r =>
      if e = 'e' ∨ e = 'E' then
        let (eneg, r2) :=
          match r with
          | '-' :: rr => (true, rr)
          | '+' :: rr => (false, rr)
          | _ => (false, r)
        let (eds, r3) := takeDigits r2
        if eds.isEmpty then some (mant, e :: r)
        else if eneg then some (divPow10 mant (digitsToNat eds), r3)
        else some (mulPow10 mant (digitsToNat eds), r3)
      else some (mant, e :: r)
    | [] => some (mant, [])

/-- Modelled from JavaScript `parseFloat`: skip leading whitespace, parse the
longest numeric prefix; `none` models the NaN result. -/
def parseFloatOpt (s : String) : Option ℚ :=
  (parseFloatCore (s.data.dropWhile (fun ch => decide (ch = ' ' ∨ ch = '\t' ∨ ch = '\n' ∨ ch = '\r')))).map Prod.fst

/-- `parseFloat` as the source uses it on a position string: a failed parse
leaves the IEEE NaN in the position variable. -/
def parseFloatJs (s : String) : JsValue :=
  match parseFloatOpt s with
  | some q => JsValue.num q
  | none => JsValue.nan

/-- Modelled from jQuery `$.isNumeric`: the entire string (modulo surrounding
whitespace) denotes a finite number. -/
def isNumericJs (s : String) : Bool :=
  match parseFloatCore (s.data.dropWhile (fun ch => decide (ch = ' ' ∨ ch = '\t' ∨ ch = '\n' ∨ ch = '\r'))) with
  | some (_, rest) => decide (rest.dropWhile (fun ch => decide (ch = ' ' ∨ ch = '\t' ∨ ch = '\n' ∨ ch = '\r')) = [])
  | none => false

/-! ## Axis naming -/

/-- non-canonical but recognized names for the vertical axis -/
def altAxisNamesV : List String := ["v", "y", "top"]

/-- non-canonical but recognized names for the horizontal axis -/
def altAxisNamesH : List String := ["h", "x", "left"]

/-- non-canonical but recognized names for both axes -/
def altAxisNamesBoth : List String := ["vh", "hv", "xy", "yx", "all"]

/-- all non-canonical but recognized names for one or both axes -/
def altAxisNames : List String := altAxisNamesV ++ altAxisNamesH ++ altAxisNamesBoth

/-- The alias-to-canonical rewriting step of `norm.normalizeAxisName` (the
three `lib.isInArray` branches); an unrecognized name passes through. -/
def mapAxisAlias (name : String) : String :=
  if name ∈ altAxisNamesV then norm.VERTICAL
  else if name ∈ altAxisNamesH then norm.HORIZONTAL
  else if name ∈ altAxisNamesBoth then norm.BOTH_AXES
  else name

/-- The error taxonomy: one constructor per throw site of the source. -/
inductive NormError where
  /-- `normalizeAxisName`: "Invalid axis name ..." -/
  | invalidAxisName (name : String)
  /-- `normalizePositionForAxis`: "Axis option not defined, or not defined unambiguously ..." -/
  | ambiguousAxis (axisValue : JsValue)
  /-- `normalizePositionForAxis`: "Desired position ... is inconsistent with axis option ..." -/
  | axisKeywordMismatch (position : String) (axis : String)
  /-- `normalizePositionForAxis`: "Invalid position argument ..." -/
  | invalidPositionValue (orig : JsValue)
deriving DecidableEq

/-- `norm.normalizeAxisName`: accepts any recognized name for an axis and
returns the canonical axis name, failing on anything else. -/
def normalizeAxisName (name : String) : Except NormError String :=
  let name := mapAxisAlias name
  if name = norm.VERTICAL ∨ name = norm.HORIZONTAL ∨ name = norm.BOTH_AXES then
    Except.ok name
  else
    Except.error (NormError.invalidAxisName name)

/-- `normalizeAxisProperty`: copy of a hash with every key that is a
recognized axis alias rewritten to its canonical name (on recognized keys
`normalizeAxisName` cannot fail, so the rewriting is `mapAxisAlias`). -/
def normalizeAxisProperty (inputHash : JsObj) : JsObj :=
  inputHash.map (fun kv => (if kv.1 ∈ altAxisNames then mapAxisAlias kv.1 else kv.1, kv.2))

/-! ## Queue info and modes -/

/-- One step of the `$.each` loop in `getLastPositionInfo`: overwrite the
running per-axis value whenever the entry carries a defined, non-ignored
target for that axis. -/
def lastPosStep (last : Coordinates) (entry : Option PartialCoords) : Coordinates :=
  match entry with
  | none => last
  | some pos =>
    let last1 : Coordinates :=
      match pos.horizontal with
      | some rx => if rx ≠ norm.IGNORE_AXIS then ⟨rx, last.vertical⟩ else last
      | none => last
    match pos.vertical with
    | some ry => if ry ≠ norm.IGNORE_AXIS then ⟨last1.horizontal, ry⟩ else last1
    | none => last1

/-- `getLastPositionInfo` for both axes: scan the snapshot oldest to newest,
starting from `IGNORE_AXIS` on both axes. -/
def getLastPositionInfoBoth (snap : Snapshot) : Coordinates :=
  snap.foldl lastPosStep ⟨norm.IGNORE_AXIS, norm.IGNORE_AXIS⟩

/-- `getLastPositionInfo` restricted to a single axis, the only form the
resolution engine calls. -/
def getLastPositionInfo (snap : Snapshot) (axis : String) : ℚ :=
  getCoord (getLastPositionInfoBoth snap) axis

/-- `getScrollMode`: derive the mode from the truthiness of the `append` and
`merge` options, `append` taking priority. -/
def getScrollMode (animationOptions : JsObj) : String :=
  if truthy (objGet animationOptions "append") then norm.MODE_APPEND
  else if truthy (objGet animationOptions "merge") then norm.MODE_MERGE
  else norm.MODE_REPLACE

/-- `getStartScrollPosition`: the base for a relative movement — in append or
merge mode the last queued target if there is one, otherwise the live
current position. -/
def getStartScrollPosition (c : Container) (snap : Snapshot) (axis scrollMode : String) : ℚ :=
  let position : Option ℚ :=
    if scrollMode = norm.MODE_APPEND ∨ scrollMode = norm.MODE_MERGE then
      some (getLastPositionInfo snap axis)
    else none
  match position with
  | none => getCurrentScrollPosition c axis
  | some p => if p = norm.IGNORE_AXIS then getCurrentScrollPosition c axis else p

/-- JavaScript `Math.min` on two numbers. -/
def jsMin (a b : ℚ) : ℚ :=
  if a ≤ b then a else b

/-- JavaScript `Math.max` on two numbers. -/
def jsMax (a b : ℚ) : ℚ :=
  if a ≤ b then b else a

/-- `limitToScrollRange`: clamp into the scrollable range, `Math.min` with
the maximum first, then `Math.max` with 0. -/
def limitToScrollRange (position : ℚ) (c : Container) (axis : String) : ℚ :=
  jsMax (jsMin position (getScrollMaximum c axis)) 0

/-- `isUndefinedPositionValue`: `undefined`, `null`, `false` and the empty
string count as undefined position values. -/
def isUndefinedPositionValue : JsValue → Bool
  | JsValue.undef => true
  | JsValue.null => true
  | JsValue.boolean b => !b
  | JsValue.str s => decide (s = "")
  | _ => false

/-! ## The single-axis resolver -/

/-- The unit-resolution step of `normalizePositionForAxis` on a lowercased,
prefix-stripped string: resolve a `px` suffix, a `%` suffix, or an
axis-specific keyword, then convert a remaining fully numeric string; a
keyword of the other axis throws. -/
def resolveUnits (position : String) (c : Container) (axis : String) : Except NormError JsValue :=
  let afterUnits : Except NormError JsValue :=
    if strSliceNeg position 2 = "px" then
      Except.ok (parseFloatJs (strDropLast position 2))
    else if strSliceNeg position 1 = "%" then
      Except.ok
        (match parseFloatOpt (strDropLast position 1) with
         | some q => JsValue.num (q * getScrollMaximum c axis / 100)
         | none => JsValue.nan)
    else if axis = norm.HORIZONTAL then
      if position = "left" then Except.ok (JsValue.num 0)
      else if position = "right" then Except.ok (JsValue.num (getScrollMaximum c axis))
      else if position = "top" ∨ position = "bottom" then
        Except.error (NormError.axisKeywordMismatch position axis)
      else Except.ok (JsValue.str position)
    else
      if position = "top" then Except.ok (JsValue.num 0)
      else if position = "bottom" then Except.ok (JsValue.num (getScrollMaximum c axis))
      else if position = "left" ∨ position = "right" then
        Except.error (NormError.axisKeywordMismatch position axis)
      else Except.ok (JsValue.str position)
  match afterUnits with
  | Except.ok (JsValue.str s) =>
    if isNumericJs s then Except.ok (parseFloatJs s) else Except.ok (JsValue.str s)
  | other => other

/-- The string-conversion phase of `normalizePositionForAxis`: lowercase,
strip a `+=`/`-=` relative marker (recording sign and base position), then
resolve units.  Non-strings pass through with base 0 and sign 1. -/
def stringStep (position : JsValue) (c : Container) (snap : Snapshot) (axis scrollMode : String) :
    Except NormError (ℚ × ℚ × JsValue) :=
  match position with
  | JsValue.str s =>
    let low := jsToLower s
    let pre := strTake low 2
    if pre = "+=" ∨ pre = "-=" then
      let sign : ℚ := if pre = "+=" then 1 else -1
      let basePosition := getStartScrollPosition c snap axis scrollMode
      match resolveUnits (strDrop low 2) c axis with
      | Except.error e => Except.error e
      | Except.ok v => Except.ok (basePosition, sign, v)
    else
      match resolveUnits low c axis with
      | Except.error e => Except.error e
      | Except.ok v => Except.ok ((0 : ℚ), (1 : ℚ), v)
  | other => Except.ok ((0 : ℚ), (1 : ℚ), other)

/-- The final phase of `normalizePositionForAxis`: a numeric value is rounded
and range-limited; an undefined-like value yields `IGNORE_AXIS` (or, in merge
mode, the last queued target); anything else is an invalid position.
`lib.isNumber` is the `num` discrimination here — Modelled from the spec:
a non-numeric parse result (NaN) is not a number and falls through to the
invalid-position error. -/
def numericFinish (axis scrollMode : String) (c : Container) (snap : Snapshot) (orig : JsValue) :
    ℚ × ℚ × JsValue → Except NormError Coordinates
  | (basePosition, sign, pos) =>
    match pos with
    | JsValue.num q =>
      Except.ok (mkPair axis (limitToScrollRange ((jsRound (basePosition + sign * q) : ℤ) : ℚ) c axis))
    | other =>
      if isUndefinedPositionValue other then
        Except.ok (mkPair axis
          (if scrollMode = norm.MODE_MERGE then getLastPositionInfo snap axis else norm.IGNORE_AXIS))
      else Except.error (NormError.invalidPositionValue orig)

/-- `normalizePositionForAxis`: normalize a numeric or string position for
the single axis named by `options.axis`; the other axis of the returned pair
is set to `IGNORE_AXIS`. -/
def normalizePositionForAxis (position : JsValue) (c : Container) (options : JsObj) (snap : Snapshot) :
    Except NormError Coordinates :=
  let axisV := objGet options "axis"
  if axisV = JsValue.str norm.HORIZONTAL ∨ axisV = JsValue.str norm.VERTICAL then
    let axis := if axisV = JsValue.str norm.HORIZONTAL then norm.HORIZONTAL else norm.VERTICAL
    let scrollMode := getScrollMode options
    match stringStep position c snap axis scrollMode with
    | Except.error e => Except.error e
    | Except.ok t => numericFinish axis scrollMode c snap position t
  else Except.error (NormError.ambiguousAxis axisV)

/-- `normalizePositionForHash`: canonicalize the hash keys and resolve each
axis through `normalizePositionForAxis` with the axis option pinned; an axis
excluded by `options.axis` reads the last queued target when `options.merge`
is truthy and `IGNORE_AXIS` otherwise. -/
def normalizePositionForHash (position : JsObj) (c : Container) (options : JsObj) (snap : Snapshot) :
    Except NormError Coordinates :=
  let axisV := objGet options "axis"
  let pos := normalizeAxisProperty position
  let posX := objGet pos norm.HORIZONTAL
  let posY := objGet pos norm.VERTICAL
  let optionsX := jsExtend options [("axis", JsValue.str norm.HORIZONTAL)]
  let optionsY := jsExtend options [("axis", JsValue.str norm.VERTICAL)]
  let hRes : Except NormError ℚ :=
    if axisV = JsValue.str norm.VERTICAL then
      Except.ok
        (if truthy (objGet options "merge") then getLastPositionInfo snap norm.HORIZONTAL
         else norm.IGNORE_AXIS)
    else
      match normalizePositionForAxis posX c optionsX snap with
      | Except.error e => Except.error e
      | Except.ok r => Except.ok r.horizontal
  let vRes : Except NormError ℚ :=
    if axisV = JsValue.str norm.HORIZONTAL then
      Except.ok
        (if truthy (objGet options "merge") then getLastPositionInfo snap norm.VERTICAL
         else norm.IGNORE_AXIS)
    else
      match normalizePositionForAxis posY c optionsY snap with
      | Except.error e => Except.error e
      | Except.ok r => Except.ok r.vertical
  match hRes with
  | Except.error e => Except.error e
  | Except.ok hv =>
    match vRes with
    | Except.error e => Except.error e
    | Except.ok vv => Except.ok ⟨hv, vv⟩

/-- `norm.normalizePosition`, the engine's `resolvePosition`: dispatch on the
shape of the position.  The `$scrollable`/queue pair of the source is
modelled by passing the queue snapshot for `options.queue` directly
(`QueueView.snapshot`). -/
def normalizePosition (position : Position) (c : Container) (snap : Snapshot) (options : JsObj) :
    Except NormError Coordinates :=
  match position with
  | Position.hash h => normalizePositionForHash h c options snap
  | Position.prim v => normalizePositionForAxis v c options snap

/-! ## Options normalization -/

/-- `norm.normalizeOptions`, the engine's `resolveOptions`: canonicalize the
option keys, derive the axis default from the shape of the position, and
apply the defaults. -/
def normalizeOptions (options : Option JsObj) (position : Position) : JsObj :=
  let opts : JsObj :=
    match options with
    | some o => normalizeAxisProperty o
    | none => []
  let axisDefault : String :=
    match position with
    | Position.hash h =>
      let p := normalizeAxisProperty h
      let hasX := ¬ (isUndefinedPositionValue (objGet p norm.HORIZONTAL) = true) ∧
        objGet p norm.HORIZONTAL ≠ JsValue.num norm.IGNORE_AXIS
      let hasY := ¬ (isUndefinedPositionValue (objGet p norm.VERTICAL) = true) ∧
        objGet p norm.VERTICAL ≠ JsValue.num norm.IGNORE_AXIS
      if hasX ∧ hasY then norm.BOTH_AXES
      else if hasX then norm.HORIZONTAL
      else norm.VERTICAL
    | Position.prim (JsValue.str s) =>
      let low := jsToLower s
      if low = "top" ∨ low = "bottom" then norm.VERTICAL
      else if low = "left" ∨ low = "right" then norm.HORIZONTAL
      else norm.VERTICAL
    | _ => norm.VERTICAL
  jsExtend (jsExtend norm.defaults [("axis", JsValue.str axisDefault)]) opts

/-! ## Spec-side definitions

These definitions transcribe the wording of the specification (not the
source); the theorems below compare them with the embedded source
functions. -/

/-- Written from the spec: the per-axis queue-inheritance fold
(`lastQueuedTarget`) — scan the snapshot from oldest to newest and overwrite
a running value exactly when an entry specifies a target for this axis that
is neither undefined nor `IGNORE_AXIS`, starting from `IGNORE_AXIS`. -/
def specLastTarget (snap : Snapshot) (axis : String) : ℚ :=
  snap.foldl
    (fun acc entry =>
      match entry with
      | none => acc
      | some pc =>
        match (if axis = norm.HORIZONTAL then pc.horizontal else pc.vertical) with
        | some q => if q ≠ norm.IGNORE_AXIS then q else acc
        | none => acc)
    norm.IGNORE_AXIS

/-- Written from the spec: the base of a relative (`+=`/`-=`) movement — the
live current position in replace mode; in append or merge mode the axis's
last queued target when the queue defines one, otherwise the live current
position. -/
def specRelativeBase (c : Container) (snap : Snapshot) (axis mode : String) : ℚ :=
  if mode = norm.MODE_APPEND ∨ mode = norm.MODE_MERGE then
    if getLastPositionInfo snap axis = norm.IGNORE_AXIS then getCurrentScrollPosition c axis
    else getLastPositionInfo snap axis
  else getCurrentScrollPosition c axis

/-- Written from the spec: the derived default axis of `resolveOptions` —
`both` when a hash carries both axes present and non-ignorable, the single
present axis when exactly one is, `vertical` for the keywords
`top`/`bottom`, `horizontal` for `left`/`right` (case-insensitively), and
`vertical` otherwise. -/
def specDerivedAxis (position : Position) : String :=
  match position with
  | Position.hash h =>
    let p := normalizeAxisProperty h
    let hasX := ¬ (isUndefinedPositionValue (objGet p norm.HORIZONTAL) = true) ∧
      objGet p norm.HORIZONTAL ≠ JsValue.num norm.IGNORE_AXIS
    let hasY := ¬ (isUndefinedPositionValue (objGet p norm.VERTICAL) = true) ∧
      objGet p norm.VERTICAL ≠ JsValue.num norm.IGNORE_AXIS
    if hasX ∧ hasY then norm.BOTH_AXES
    else if hasX ∧ ¬ hasY then norm.HORIZONTAL
    else if hasY ∧ ¬ hasX then norm.VERTICAL
    else norm.VERTICAL
  | Position.prim (JsValue.str s) =>
    if jsToLower s = "top" ∨ jsToLower s = "bottom" then norm.VERTICAL
    else if jsToLower s = "left" ∨ jsToLower s = "right" then norm.HORIZONTAL
    else norm.VERTICAL
  | _ => norm.VERTICAL

/-- A slot of a result pair is lawful for a maximum `mx` when it is the
`IGNORE_AXIS` sentinel or an integer within `[0, mx]`. -/
def validSlot (q : ℚ) (mx : ℚ) : Prop :=
  q = norm.IGNORE_AXIS ∨ ((∃ k : ℤ, q = (k : ℚ)) ∧ 0 ≤ q ∧ q ≤ mx)

/-- A queue snapshot is lawful for a container when every defined slot of
every entry is a lawful slot for the corresponding axis maximum (the
`QueueSnapshot` entries are partial `ResolvedCoordinates`). -/
def validSnapshot (snap : Snapshot) (c : Container) : Prop :=
  ∀ e ∈ snap, ∀ pc : PartialCoords, e = some pc →
    (∀ q : ℚ, pc.horizontal = some q → validSlot q c.maxH) ∧
    (∀ q : ℚ, pc.vertical = some q → validSlot q c.maxV)

/-! ## Shared helper lemmas -/

theorem jsMin_eq_min (a b : ℚ) : jsMin a b = min a b := by
  simp [jsMin, min_def]

theorem jsMax_eq_max (a b : ℚ) : jsMax a b = max a b := by
  simp [jsMax, max_def]

theorem limitToScrollRange_eq (p : ℚ) (c : Container) (axis : String) :
    limitToScrollRange p c axis = max (min p (getScrollMaximum c axis)) 0 := by
  simp [limitToScrollRange, jsMin_eq_min, jsMax_eq_max]

theorem vertical_ne_horizontal : norm.VERTICAL ≠ norm.HORIZONTAL := by
  decide

/-- Unfolding of the single-axis resolver when the axis option names a
definite axis. -/
theorem normalizePositionForAxis_eq (position : JsValue) (c : Container) (options : JsObj)
    (snap : Snapshot) (ax : String)
    (hax : objGet options "axis" = JsValue.str ax)
    (ha : ax = norm.HORIZONTAL ∨ ax = norm.VERTICAL) :
    normalizePositionForAxis position c options snap =
      match stringStep position c snap ax (getScrollMode options) with
      | Except.error e => Except.error e
      | Except.ok t => numericFinish ax (getScrollMode options) c snap position t := by
  unfold normalizePositionForAxis
  rw [hax]
  rcases ha with rfl | rfl
  · simp
  · rw [if_pos (Or.inr rfl), if_neg]
    intro hcontra
    exact vertical_ne_horizontal (JsValue.str.injEq _ _ ▸ hcontra)

theorem getCoord_mkPair_other (a : String) (v : ℚ)
    (ha : a = norm.HORIZONTAL ∨ a = norm.VERTICAL) :
    getCoord (mkPair a v) (otherAxis a) = norm.IGNORE_AXIS := by
  rcases ha with rfl | rfl <;>
    simp [getCoord, mkPair, otherAxis, norm.HORIZONTAL, norm.VERTICAL]

theorem getCoord_mkPair_self (a : String) (v : ℚ) : getCoord (mkPair a v) a = v := by
  by_cases h : a = norm.HORIZONTAL <;> simp [getCoord, mkPair, h]

/-! ## Claim C1 -/

/-- C1: for every finite number `n`, every container whose maximum
scrollable offset on axis `a` is a non-negative integer `m`, and every
single axis `a`, resolving the position `n` in replace mode returns, without
error, a pair whose slot for `a` is `max (min (round n) m) 0` and whose
other-axis slot is `IGNORE_AXIS`. -/
theorem c1_numeric_replace_clamps (n : ℚ) (c : Container) (snap : Snapshot) (opts : JsObj)
    (a : String) (m : ℕ)
    (hax : objGet opts "axis" = JsValue.str a)
    (ha : a = norm.HORIZONTAL ∨ a = norm.VERTICAL)
    (hmode : getScrollMode opts = norm.MODE_REPLACE)
    (hm : getScrollMaximum c a = (m : ℚ)) :
    normalizePosition (Position.prim (JsValue.num n)) c snap opts =
      Except.ok (mkPair a (max (min ((jsRound n : ℤ) : ℚ) ((m : ℕ) : ℚ)) 0)) ∧
    getCoord (mkPair a (max (min ((jsRound n : ℤ) : ℚ) ((m : ℕ) : ℚ)) 0)) (otherAxis a) =
      norm.IGNORE_AXIS := by
  refine ⟨?_, getCoord_mkPair_other a _ ha⟩
  show normalizePositionForAxis (JsValue.num n) c opts snap = _
  rw [normalizePositionForAxis_eq _ _ _ _ a hax ha]
  show numericFinish a (getScrollMode opts) c snap (JsValue.num n) (0, 1, JsValue.num n) = _
  simp only [numericFinish, limitToScrollRange_eq, hm, zero_add, one_mul]

/-- Witness for C1 at `n = 37/10`, vertical axis, maximum 100. -/
theorem c1_witness :
    objGet [("axis", JsValue.str norm.VERTICAL)] "axis" = JsValue.str norm.VERTICAL ∧
    getScrollMode [("axis", JsValue.str norm.VERTICAL)] = norm.MODE_REPLACE ∧
    getScrollMaximum ⟨0, 0, 100, 100⟩ norm.VERTICAL = ((100 : ℕ) : ℚ) ∧
    normalizePosition (Position.prim (JsValue.num (37 / 10))) ⟨0, 0, 100, 100⟩ []
        [("axis", JsValue.str norm.VERTICAL)] =
      Except.ok ⟨norm.IGNORE_AXIS, 4⟩ :=
  ⟨by with_unfolding_all decide, by with_unfolding_all decide, by with_unfolding_all decide,
    (c1_numeric_replace_clamps (37 / 10) ⟨0, 0, 100, 100⟩ [] [("axis", JsValue.str norm.VERTICAL)]
          norm.VERTICAL 100 (by with_unfolding_all decide) (Or.inr rfl)
          (by with_unfolding_all decide) (by with_unfolding_all decide)).1.trans
      (by with_unfolding_all decide)⟩

/-! ## Claim C8 -/

/-- C8: resolving the position string `"top"` or `"bottom"` while the
effective single axis is horizontal raises the keyword-mismatch error, and
symmetrically `"left"`/`"right"` on the vertical axis; no coordinate pair is
returned. -/
theorem c8_keyword_mismatch (c : Container) (snap : Snapshot) (opts : JsObj) (s : String) :
    (objGet opts "axis" = JsValue.str norm.HORIZONTAL → s = "top" ∨ s = "bottom" →
      normalizePosition (Position.prim (JsValue.str s)) c snap opts =
        Except.error (NormError.axisKeywordMismatch s norm.HORIZONTAL)) ∧
    (objGet opts "axis" = JsValue.str norm.VERTICAL → s = "left" ∨ s = "right" →
      normalizePosition (Position.prim (JsValue.str s)) c snap opts =
        Except.error (NormError.axisKeywordMismatch s norm.VERTICAL)) := by
  constructor
  · intro hax hs
    show normalizePositionForAxis (JsValue.str s) c opts snap = _
    rw [normalizePositionForAxis_eq _ _ _ _ norm.HORIZONTAL hax (Or.inl rfl)]
    rcases hs with rfl | rfl <;> with_unfolding_all rfl
  · intro hax hs
    show normalizePositionForAxis (JsValue.str s) c opts snap = _
    rw [normalizePositionForAxis_eq _ _ _ _ norm.VERTICAL hax (Or.inr rfl)]
    rcases hs with rfl | rfl <;> with_unfolding_all rfl

/-- Witness for C8 at `"top"` with a horizontal axis option. -/
theorem c8_witness :
    objGet [("axis", JsValue.str norm.HORIZONTAL)] "axis" = JsValue.str norm.HORIZONTAL ∧
    normalizePosition (Position.prim (JsValue.str "top")) ⟨0, 0, 100, 100⟩ []
        [("axis", JsValue.str norm.HORIZONTAL)] =
      Except.error (NormError.axisKeywordMismatch "top" norm.HORIZONTAL) :=
  ⟨by with_unfolding_all decide,
    (c8_keyword_mismatch ⟨0, 0, 100, 100⟩ [] [("axis", JsValue.str norm.HORIZONTAL)] "top").1
      (by with_unfolding_all decide) (Or.inl rfl)⟩

/-! ## Claim C7 -/

/-- C7: `normalizeAxisName` maps every recognized alias to its canonical
axis, returns the three canonical names unchanged, and fails with the
invalid-axis-name error on every other string. -/
theorem c7_axis_name_canonicalization (s : String) :
    (s ∈ altAxisNamesV → normalizeAxisName s = Except.ok norm.VERTICAL) ∧
    (s ∈ altAxisNamesH → normalizeAxisName s = Except.ok norm.HORIZONTAL) ∧
    (s ∈ altAxisNamesBoth → normalizeAxisName s = Except.ok norm.BOTH_AXES) ∧
    (s = norm.VERTICAL ∨ s = norm.HORIZONTAL ∨ s = norm.BOTH_AXES →
      normalizeAxisName s = Except.ok s) ∧
    (s ∉ altAxisNames ++ [norm.VERTICAL, norm.HORIZONTAL, norm.BOTH_AXES] →
      normalizeAxisName s = Except.error (NormError.invalidAxisName s)) := by
  refine ⟨?_, ?_, ?_, ?_, ?_⟩
  · intro h; fin_cases h <;> decide
  · intro h; fin_cases h <;> decide
  · intro h; fin_cases h <;> decide
  · intro h; rcases h with rfl | rfl | rfl <;> decide
  · intro h
    have hv : s ∉ altAxisNamesV := fun hc =>
      h (List.mem_append_left _ (List.mem_append_left _ (List.mem_append_left _ hc)))
    have hh : s ∉ altAxisNamesH := fun hc =>
      h (List.mem_append_left _ (List.mem_append_left _ (List.mem_append_right _ hc)))
    have hb : s ∉ altAxisNamesBoth := fun hc =>
      h (List.mem_append_left _ (List.mem_append_right _ hc))
    have hcanon : ¬ (s = norm.VERTICAL ∨ s = norm.HORIZONTAL ∨ s = norm.BOTH_AXES) := by
      intro hc
      refine h (List.mem_append_right _ ?_)
      rcases hc with rfl | rfl | rfl <;> simp
    simp only [normalizeAxisName, mapAxisAlias, if_neg hv, if_neg hh, if_neg hb, if_neg hcanon]

/-- Witness for C7 at the alias `"y"` and the unrecognized name `"diag"`. -/
theorem c7_witness :
    ("y" ∈ altAxisNamesV ∧ normalizeAxisName "y" = Except.ok norm.VERTICAL) ∧
    ("diag" ∉ altAxisNames ++ [norm.VERTICAL, norm.HORIZONTAL, norm.BOTH_AXES] ∧
      normalizeAxisName "diag" = Except.error (NormError.invalidAxisName "diag")) :=
  ⟨⟨by decide, (c7_axis_name_canonicalization "y").1 (by decide)⟩,
    ⟨by decide, (c7_axis_name_canonicalization "diag").2.2.2.2 (by decide)⟩⟩

/-! ## Claim C4 -/

theorem foldl_lastPosStep_horizontal (snap : Snapshot) :
    ∀ acc : Coordinates,
      (List.foldl lastPosStep acc snap).horizontal =
        List.foldl
          (fun a e =>
            match e with
            | none => a
            | some pc =>
              match pc.horizontal with
              | some q => if q ≠ norm.IGNORE_AXIS then q else a
              | none => a)
          acc.horizontal snap := by
  induction snap with
  | nil => intro acc; rfl
  | cons e rest ih =>
    intro acc
    simp only [List.foldl_cons]
    rw [ih]
    congr 1
    cases e with
    | none => rfl
    | some pc =>
      rcases pc with ⟨hxv, hyv⟩
      cases hxv <;> cases hyv <;> simp only [lastPosStep] <;> split_ifs <;> rfl

theorem foldl_lastPosStep_vertical (snap : Snapshot) :
    ∀ acc : Coordinates,
      (List.foldl lastPosStep acc snap).vertical =
        List.foldl
          (fun a e =>
            match e with
            | none => a
            | some pc =>
              match pc.vertical with
              | some q => if q ≠ norm.IGNORE_AXIS then q else a
              | none => a)
          acc.vertical snap := by
  induction snap with
  | nil => intro acc; rfl
  | cons e rest ih =>
    intro acc
    simp only [List.foldl_cons]
    rw [ih]
    congr 1
    cases e with
    | none => rfl
    | some pc =>
      rcases pc with ⟨hxv, hyv⟩
      cases hxv <;> cases hyv <;> simp only [lastPosStep] <;> split_ifs <;> rfl

/-- C4: for every queue snapshot and each single axis, the source's
`getLastPositionInfo` equals the spec's per-axis fold that overwrites the
running value exactly on entries specifying a defined, non-ignored target
for that axis, starting from `IGNORE_AXIS`. -/
theorem c4_last_queued_target_fold (snap : Snapshot) (ax : String)
    (ha : ax = norm.HORIZONTAL ∨ ax = norm.VERTICAL) :
    getLastPositionInfo snap ax = specLastTarget snap ax := by
  rcases ha with rfl | rfl
  · show getCoord (getLastPositionInfoBoth snap) norm.HORIZONTAL = _
    rw [getCoord, if_pos rfl]
    rw [getLastPositionInfoBoth, foldl_lastPosStep_horizontal]
    simp [specLastTarget, norm.HORIZONTAL]
  · show getCoord (getLastPositionInfoBoth snap) norm.VERTICAL = _
    rw [getCoord, if_neg vertical_ne_horizontal]
    rw [getLastPositionInfoBoth, foldl_lastPosStep_vertical]
    simp [specLastTarget, norm.VERTICAL, norm.HORIZONTAL]

/-- Witness for C4 at the snapshot `[{vertical: 50}, {horizontal: 80}]`:
both per-axis targets are found independently. -/
theorem c4_witness :
    (norm.VERTICAL = norm.HORIZONTAL ∨ norm.VERTICAL = norm.VERTICAL) ∧
    getLastPositionInfo [some ⟨none, some 50⟩, some ⟨some 80, none⟩] norm.VERTICAL =
      specLastTarget [some ⟨none, some 50⟩, some ⟨some 80, none⟩] norm.VERTICAL ∧
    getLastPositionInfo [some ⟨none, some 50⟩, some ⟨some 80, none⟩] norm.VERTICAL = 50 ∧
    getLastPositionInfo [some ⟨none, some 50⟩, some ⟨some 80, none⟩] norm.HORIZONTAL = 80 :=
  ⟨Or.inr rfl,
    c4_last_queued_target_fold [some ⟨none, some 50⟩, some ⟨some 80, none⟩] norm.VERTICAL
      (Or.inr rfl),
    by with_unfolding_all decide, by with_unfolding_all decide⟩

/-! ## Claim C9 -/

theorem jsRound_intCast (k : ℤ) : jsRound ((k : ℤ) : ℚ) = k := by
  rw [jsRound, add_comm, Int.floor_add_int]
  norm_num

/-- C9: resolving `"50%"` on the vertical axis in replace mode yields the
same coordinate pair as resolving the number `round (1/2 * m)` where `m` is
the container's non-negative integer vertical maximum. -/
theorem c9_percent_round_trip (c : Container) (snap : Snapshot) (opts : JsObj) (m : ℕ)
    (hax : objGet opts "axis" = JsValue.str norm.VERTICAL)
    (hmode : getScrollMode opts = norm.MODE_REPLACE)
    (hm : getScrollMaximum c norm.VERTICAL = (m : ℚ)) :
    normalizePosition (Position.prim (JsValue.str "50%")) c snap opts =
      normalizePosition
        (Position.prim (JsValue.num ((jsRound ((1 / 2) * (m : ℚ)) : ℤ) : ℚ))) c snap opts := by
  show normalizePositionForAxis (JsValue.str "50%") c opts snap =
    normalizePositionForAxis (JsValue.num ((jsRound ((1 / 2) * (m : ℚ)) : ℤ) : ℚ)) c opts snap
  rw [normalizePositionForAxis_eq _ _ _ _ norm.VERTICAL hax (Or.inr rfl),
    normalizePositionForAxis_eq _ _ _ _ norm.VERTICAL hax (Or.inr rfl)]
  have h50 : stringStep (JsValue.str "50%") c snap norm.VERTICAL (getScrollMode opts) =
      Except.ok (0, 1, JsValue.num (50 * getScrollMaximum c norm.VERTICAL / 100)) := by
    with_unfolding_all rfl
  rw [h50]
  show numericFinish _ _ _ _ _ _ = numericFinish _ _ _ _ _ _
  simp only [numericFinish]
  congr 2
  rw [hm, zero_add, zero_add, one_mul, one_mul, jsRound_intCast]
  have harith : (50 : ℚ) * (m : ℚ) / 100 = 1 / 2 * (m : ℚ) := by ring
  rw [harith]

/-- Witness for C9 at vertical maximum 333 (50% of 333 rounds to 167). -/
theorem c9_witness :
    objGet [("axis", JsValue.str norm.VERTICAL)] "axis" = JsValue.str norm.VERTICAL ∧
    getScrollMode [("axis", JsValue.str norm.VERTICAL)] = norm.MODE_REPLACE ∧
    getScrollMaximum ⟨0, 0, 0, 333⟩ norm.VERTICAL = ((333 : ℕ) : ℚ) ∧
    normalizePosition (Position.prim (JsValue.str "50%")) ⟨0, 0, 0, 333⟩ []
        [("axis", JsValue.str norm.VERTICAL)] =
      normalizePosition
        (Position.prim (JsValue.num ((jsRound ((1 / 2) * ((333 : ℕ) : ℚ)) : ℤ) : ℚ)))
        ⟨0, 0, 0, 333⟩ [] [("axis", JsValue.str norm.VERTICAL)] :=
  ⟨by with_unfolding_all decide, by with_unfolding_all decide, by with_unfolding_all decide,
    c9_percent_round_trip ⟨0, 0, 0, 333⟩ [] [("axis", JsValue.str norm.VERTICAL)] 333
      (by with_unfolding_all decide) (by with_unfolding_all decide)
      (by with_unfolding_all decide)⟩

/-! ## Scroll-mode helper lemmas -/

theorem scrollMode_merge_truthy (opts : JsObj) (h : getScrollMode opts = norm.MODE_MERGE) :
    truthy (objGet opts "merge") = true := by
  unfold getScrollMode at h
  split_ifs at h with h1 h2
  · exact absurd h (by decide)
  · exact h2
  · exact absurd h (by decide)

theorem scrollMode_replace_not_truthy (opts : JsObj)
    (h : getScrollMode opts = norm.MODE_REPLACE) : truthy (objGet opts "merge") = false := by
  unfold getScrollMode at h
  split_ifs at h with h1 h2
  · exact absurd h (by decide)
  · exact absurd h (by decide)
  · exact Bool.not_eq_true _ ▸ eq_false_of_ne_true h2

/-! ## Claim C3 (amended) -/

/-- Zeta-reduced restatement of `normalizePositionForHash` for rewriting. -/
theorem normalizePositionForHash_def (position : JsObj) (c : Container) (options : JsObj)
    (snap : Snapshot) :
    normalizePositionForHash position c options snap =
      match
        (if objGet options "axis" = JsValue.str norm.VERTICAL then
          Except.ok
            (if truthy (objGet options "merge") then getLastPositionInfo snap norm.HORIZONTAL
             else norm.IGNORE_AXIS)
        else
          match normalizePositionForAxis (objGet (normalizeAxisProperty position) norm.HORIZONTAL)
              c (jsExtend options [("axis", JsValue.str norm.HORIZONTAL)]) snap with
          | Except.error e => Except.error e
          | Except.ok r => Except.ok r.horizontal) with
      | Except.error e => Except.error e
      | Except.ok hv =>
        match
          (if objGet options "axis" = JsValue.str norm.HORIZONTAL then
            Except.ok
              (if truthy (objGet options "merge") then getLastPositionInfo snap norm.VERTICAL
               else norm.IGNORE_AXIS)
          else
            match normalizePositionForAxis (objGet (normalizeAxisProperty position) norm.VERTICAL)
                c (jsExtend options [("axis", JsValue.str norm.VERTICAL)]) snap with
            | Except.error e => Except.error e
            | Except.ok r => Except.ok r.vertical) with
        | Except.error e => Except.error e
        | Except.ok vv => Except.ok ⟨hv, vv⟩ := rfl

/-- Core of the C3 analysis on the side excluding the horizontal axis: the
excluded slot is driven by the truthiness of `options.merge` alone. -/
theorem hash_excluded_horizontal (c : Container) (snap : Snapshot) (opts : JsObj)
    (posHash : JsObj) (coords : Coordinates)
    (hax : objGet opts "axis" = JsValue.str norm.VERTICAL)
    (hok : normalizePosition (Position.hash posHash) c snap opts = Except.ok coords) :
    coords.horizontal =
      if truthy (objGet opts "merge") then getLastPositionInfo snap norm.HORIZONTAL
      else norm.IGNORE_AXIS := by
  have hneq : ¬ (objGet opts "axis" = JsValue.str norm.HORIZONTAL) := by
    rw [hax]
    simp [norm.VERTICAL, norm.HORIZONTAL]
  replace hok : normalizePositionForHash posHash c opts snap = Except.ok coords := hok
  rw [normalizePositionForHash_def, if_pos hax, if_neg hneq] at hok
  rcases hY : normalizePositionForAxis (objGet (normalizeAxisProperty posHash) norm.VERTICAL) c
      (jsExtend opts [("axis", JsValue.str norm.VERTICAL)]) snap with e | r
  · rw [hY] at hok
    exact absurd hok (by simp)
  · rw [hY] at hok
    simp only [Except.ok.injEq] at hok
    rw [← hok]

/-- Core of the C3 analysis on the side excluding the vertical axis. -/
theorem hash_excluded_vertical (c : Container) (snap : Snapshot) (opts : JsObj)
    (posHash : JsObj) (coords : Coordinates)
    (hax : objGet opts "axis" = JsValue.str norm.HORIZONTAL)
    (hok : normalizePosition (Position.hash posHash) c snap opts = Except.ok coords) :
    coords.vertical =
      if truthy (objGet opts "merge") then getLastPositionInfo snap norm.VERTICAL
      else norm.IGNORE_AXIS := by
  have hneq : ¬ (objGet opts "axis" = JsValue.str norm.VERTICAL) := by
    rw [hax]
    simp [norm.VERTICAL, norm.HORIZONTAL]
  replace hok : normalizePositionForHash posHash c opts snap = Except.ok coords := hok
  rw [normalizePositionForHash_def, if_pos hax, if_neg hneq] at hok
  rcases hX : normalizePositionForAxis (objGet (normalizeAxisProperty posHash) norm.HORIZONTAL) c
      (jsExtend opts [("axis", JsValue.str norm.HORIZONTAL)]) snap with e | r
  · rw [hX] at hok
    exact absurd hok (by simp)
  · rw [hX] at hok
    simp only [Except.ok.injEq] at hok
    rw [← hok]

/-- C3 amended: when a hash is resolved and the overall axis option excludes
one axis, the excluded slot equals the last queued target exactly when the
`merge` flag is truthy.  Consequently it is the last queued target whenever
the scroll mode is merge, `IGNORE_AXIS` whenever the mode is replace, and in
append mode it is `IGNORE_AXIS` only when the `merge` flag is not also set
(the source keys the choice on `options.merge`, not on the computed mode). -/
theorem c3_amended_excluded_axis (c : Container) (snap : Snapshot) (opts : JsObj)
    (posHash : JsObj) (coords : Coordinates) :
    (objGet opts "axis" = JsValue.str norm.VERTICAL →
      normalizePosition (Position.hash posHash) c snap opts = Except.ok coords →
      (coords.horizontal =
        if truthy (objGet opts "merge") then getLastPositionInfo snap norm.HORIZONTAL
        else norm.IGNORE_AXIS) ∧
      (getScrollMode opts = norm.MODE_MERGE →
        coords.horizontal = getLastPositionInfo snap norm.HORIZONTAL) ∧
      (getScrollMode opts = norm.MODE_REPLACE → coords.horizontal = norm.IGNORE_AXIS) ∧
      (getScrollMode opts = norm.MODE_APPEND → truthy (objGet opts "merge") = false →
        coords.horizontal = norm.IGNORE_AXIS)) ∧
    (objGet opts "axis" = JsValue.str norm.HORIZONTAL →
      normalizePosition (Position.hash posHash) c snap opts = Except.ok coords →
      (coords.vertical =
        if truthy (objGet opts "merge") then getLastPositionInfo snap norm.VERTICAL
        else norm.IGNORE_AXIS) ∧
      (getScrollMode opts = norm.MODE_MERGE →
        coords.vertical = getLastPositionInfo snap norm.VERTICAL) ∧
      (getScrollMode opts = norm.MODE_REPLACE → coords.vertical = norm.IGNORE_AXIS) ∧
      (getScrollMode opts = norm.MODE_APPEND → truthy (objGet opts "merge") = false →
        coords.vertical = norm.IGNORE_AXIS)) := by
  constructor
  · intro hax hok
    have hcore := hash_excluded_horizontal c snap opts posHash coords hax hok
    refine ⟨hcore, ?_, ?_, ?_⟩
    · intro hmode
      rw [hcore, if_pos]
      exact (scrollMode_merge_truthy opts hmode)
    · intro hmode
      rw [hcore, if_neg]
      simp [scrollMode_replace_not_truthy opts hmode]
    · intro _ hmerge
      rw [hcore, if_neg]
      simp [hmerge]
  · intro hax hok
    have hcore := hash_excluded_vertical c snap opts posHash coords hax hok
    refine ⟨hcore, ?_, ?_, ?_⟩
    · intro hmode
      rw [hcore, if_pos]
      exact (scrollMode_merge_truthy opts hmode)
    · intro hmode
      rw [hcore, if_neg]
      simp [scrollMode_replace_not_truthy opts hmode]
    · intro _ hmerge
      rw [hcore, if_neg]
      simp [hmerge]

/-- Counterexample to C3 as stated: with `append` and `merge` both truthy
the computed scroll mode is `append`, yet the excluded horizontal axis
inherits the queued target 80 instead of `IGNORE_AXIS`. -/
theorem c3_counterexample :
    getScrollMode
        [("axis", JsValue.str norm.VERTICAL), ("append", JsValue.boolean true),
          ("merge", JsValue.boolean true)] = norm.MODE_APPEND ∧
    normalizePosition (Position.hash []) ⟨0, 0, 100, 100⟩ [some ⟨some 80, none⟩]
        [("axis", JsValue.str norm.VERTICAL), ("append", JsValue.boolean true),
          ("merge", JsValue.boolean true)] =
      Except.ok ⟨80, norm.IGNORE_AXIS⟩ ∧
    (80 : ℚ) ≠ norm.IGNORE_AXIS := by
  refine ⟨by with_unfolding_all decide, by with_unfolding_all decide, by with_unfolding_all decide⟩

/-- Witness for the amended C3: in pure merge mode the excluded horizontal
slot does inherit the queued target. -/
theorem c3_witness :
    objGet [("axis", JsValue.str norm.VERTICAL), ("merge", JsValue.boolean true)] "axis" =
      JsValue.str norm.VERTICAL ∧
    normalizePosition (Position.hash []) ⟨0, 0, 100, 100⟩ [some ⟨some 80, none⟩]
        [("axis", JsValue.str norm.VERTICAL), ("merge", JsValue.boolean true)] =
      Except.ok ⟨80, norm.IGNORE_AXIS⟩ ∧
    Coordinates.horizontal ⟨80, norm.IGNORE_AXIS⟩ =
      (if truthy
          (objGet [("axis", JsValue.str norm.VERTICAL), ("merge", JsValue.boolean true)] "merge")
        then getLastPositionInfo [some ⟨some 80, none⟩] norm.HORIZONTAL
        else norm.IGNORE_AXIS) :=
  ⟨by with_unfolding_all decide, by with_unfolding_all decide,
    ((c3_amended_excluded_axis ⟨0, 0, 100, 100⟩ [some ⟨some 80, none⟩]
          [("axis", JsValue.str norm.VERTICAL), ("merge", JsValue.boolean true)] []
          ⟨80, norm.IGNORE_AXIS⟩).1
        (by with_unfolding_all decide) (by with_unfolding_all decide)).1⟩

/-! ## Claim C6 (amended) -/

theorem jsExtend_def (a b : JsObj) :
    jsExtend a b = a ++ b.filter (fun kv => decide (kv.2 ≠ JsValue.undef)) := rfl

theorem objGetD_append (a b : JsObj) (k : String) (d : JsValue) :
    objGetD (a ++ b) k d = objGetD b k (objGetD a k d) := by
  simp [objGetD, List.foldl_append]

/-- On an object all of whose values are defined, lookup with a default
reads the default exactly when the plain lookup reads `undefined`. -/
theorem objGetD_all_defined (k : String) :
    ∀ b : JsObj, (∀ kv ∈ b, kv.2 ≠ JsValue.undef) →
      ∀ d, objGetD b k d = if objGet b k = JsValue.undef then d else objGet b k := by
  intro b
  induction b with
  | nil => intro _ d; simp [objGet, objGetD]
  | cons kv rest ih =>
    intro hb d
    have hkv : kv.2 ≠ JsValue.undef := hb kv (List.mem_cons_self _ _)
    have hrest : ∀ x ∈ rest, x.2 ≠ JsValue.undef := fun x hx => hb x (List.mem_cons_of_mem _ hx)
    have hstep : ∀ d' : JsValue,
        objGetD (kv :: rest) k d' = objGetD rest k (if kv.1 = k then kv.2 else d') :=
      fun _ => rfl
    rw [hstep, objGet, hstep]
    by_cases hk : kv.1 = k
    · rw [if_pos hk, if_pos hk]
      have hne : objGetD rest k kv.2 ≠ JsValue.undef := by
        rw [ih hrest kv.2]
        split
        · exact hkv
        · next hz => exact hz
      rw [if_neg hne]
    · rw [if_neg hk, if_neg hk]
      exact ih hrest d

/-- The source's derived axis default coincides with the spec's priority
order. -/
theorem normalizeOptions_eq (rawOptions : Option JsObj) (position : Position) :
    normalizeOptions rawOptions position =
      jsExtend (jsExtend norm.defaults [("axis", JsValue.str (specDerivedAxis position))])
        (match rawOptions with
         | some o => normalizeAxisProperty o
         | none => []) := by
  cases position with
  | prim v => cases v <;> rfl
  | hash h =>
    simp only [normalizeOptions, specDerivedAxis]
    split_ifs <;> first | rfl | tauto

/-- C6 amended: the derived default axis follows the spec's priority order
(both axes, single axis, keyword, vertical fallback), and an explicitly
supplied `rawOptions.axis` (any defined value, passed through verbatim and
not canonicalized) overrides the derived default. -/
theorem c6_amended_axis_option (rawOptions : Option JsObj) (position : Position) :
    objGet (normalizeOptions rawOptions position) "axis" =
      (if objGet ((match rawOptions with
            | some o => normalizeAxisProperty o
            | none => ([] : JsObj)).filter (fun kv => decide (kv.2 ≠ JsValue.undef))) "axis" =
          JsValue.undef
       then JsValue.str (specDerivedAxis position)
       else
         objGet ((match rawOptions with
            | some o => normalizeAxisProperty o
            | none => ([] : JsObj)).filter (fun kv => decide (kv.2 ≠ JsValue.undef))) "axis") := by
  rw [normalizeOptions_eq, jsExtend_def, objGet, objGetD_append]
  have hbase :
      objGetD (jsExtend norm.defaults [("axis", JsValue.str (specDerivedAxis position))]) "axis"
        JsValue.undef = JsValue.str (specDerivedAxis position) := rfl
  rw [hbase]
  refine objGetD_all_defined "axis" _ (fun kv hkv => ?_) _
  have := List.of_mem_filter hkv
  simpa using this

/-- Counterexample to C6 as stated: the explicit axis value `"x"` (a
recognized alias of `horizontal`) is NOT canonicalized by the options
normalizer — the returned options carry `"x"` verbatim, not
`"horizontal"`. -/
theorem c6_counterexample :
    objGet (normalizeOptions (some [("axis", JsValue.str "x")]) (Position.prim (JsValue.num 100)))
        "axis" = JsValue.str "x" ∧
    JsValue.str "x" ≠ JsValue.str norm.HORIZONTAL ∧
    normalizeAxisName "x" = Except.ok norm.HORIZONTAL := by
  refine ⟨by with_unfolding_all decide, by with_unfolding_all decide,
    by with_unfolding_all decide⟩

/-! ## Claim C2 -/

/-- The source's relative-movement base agrees with the spec's description
for every mode string. -/
theorem getStartScrollPosition_eq_specBase (c : Container) (snap : Snapshot)
    (axis md : String) :
    getStartScrollPosition c snap axis md = specRelativeBase c snap axis md := by
  by_cases hmd : md = norm.MODE_APPEND ∨ md = norm.MODE_MERGE
  · have hrepl : ¬ (md = norm.MODE_REPLACE) := by
      rcases hmd with rfl | rfl <;> decide
    simp only [getStartScrollPosition, specRelativeBase, if_pos hmd, if_neg hrepl]
  · simp only [getStartScrollPosition, specRelativeBase, if_neg hmd]

/-- C2: a `+=`/`-=` string resolves to the clamp of
`round (base + sign * v)` where `v` is the suffix resolved by the unit rules
and `base` is the live current position in replace mode, and in append or
merge mode the axis's last queued target when the queue defines one,
otherwise the live current position. -/
theorem c2_relative_offset (s : String) (c : Container) (snap : Snapshot) (opts : JsObj)
    (ax : String) (v : ℚ)
    (hax : objGet opts "axis" = JsValue.str ax)
    (ha : ax = norm.HORIZONTAL ∨ ax = norm.VERTICAL)
    (hpre : strTake (jsToLower s) 2 = "+=" ∨ strTake (jsToLower s) 2 = "-=")
    (hunits : resolveUnits (strDrop (jsToLower s) 2) c ax = Except.ok (JsValue.num v)) :
    normalizePosition (Position.prim (JsValue.str s)) c snap opts =
      Except.ok (mkPair ax (max (min
        ((jsRound (specRelativeBase c snap ax (getScrollMode opts) +
            (if strTake (jsToLower s) 2 = "+=" then 1 else -1) * v) : ℤ) : ℚ)
        (getScrollMaximum c ax)) 0)) := by
  show normalizePositionForAxis (JsValue.str s) c opts snap = _
  rw [normalizePositionForAxis_eq _ _ _ _ ax hax ha]
  have hss : stringStep (JsValue.str s) c snap ax (getScrollMode opts) =
      Except.ok (getStartScrollPosition c snap ax (getScrollMode opts),
        (if strTake (jsToLower s) 2 = "+=" then (1 : ℚ) else -1), JsValue.num v) := by
    simp only [stringStep, if_pos hpre, hunits]
  rw [hss]
  show numericFinish ax (getScrollMode opts) c snap (JsValue.str s) _ = _
  simp only [numericFinish, limitToScrollRange_eq, getStartScrollPosition_eq_specBase]

/-- Witness for C2: `"+=50"` from current vertical position 100, maximum
1000, replace mode — resolves to 150 (the spec's own example). -/
theorem c2_witness :
    objGet [("axis", JsValue.str norm.VERTICAL)] "axis" = JsValue.str norm.VERTICAL ∧
    (strTake (jsToLower "+=50") 2 = "+=" ∨ strTake (jsToLower "+=50") 2 = "-=") ∧
    resolveUnits (strDrop (jsToLower "+=50") 2) ⟨0, 100, 1000, 1000⟩ norm.VERTICAL =
      Except.ok (JsValue.num 50) ∧
    normalizePosition (Position.prim (JsValue.str "+=50")) ⟨0, 100, 1000, 1000⟩ []
        [("axis", JsValue.str norm.VERTICAL)] =
      Except.ok ⟨norm.IGNORE_AXIS, 150⟩ :=
  ⟨by with_unfolding_all decide, Or.inl (by with_unfolding_all decide),
    by with_unfolding_all decide,
    (c2_relative_offset "+=50" ⟨0, 100, 1000, 1000⟩ [] [("axis", JsValue.str norm.VERTICAL)]
          norm.VERTICAL 50 (by with_unfolding_all decide) (Or.inr rfl)
          (Or.inl (by with_unfolding_all decide)) (by with_unfolding_all decide)).trans
      (by rw [min_def, max_def] ; with_unfolding_all decide)⟩

/-! ## Option-object helper lemmas -/

theorem objGet_extend_self (opts : JsObj) (a : JsValue) (ha : a ≠ JsValue.undef) :
    objGet (jsExtend opts [("axis", a)]) "axis" = a := by
  rw [jsExtend_def, objGet, objGetD_append]
  have hfil : ([("axis", a)] : JsObj).filter (fun kv => decide (kv.2 ≠ JsValue.undef)) =
      [("axis", a)] := by
    simp [List.filter, ha]
  rw [hfil]
  rfl

theorem objGet_extend_other (opts : JsObj) (k : String) (a : JsValue) (hk : k ≠ "axis") :
    objGet (jsExtend opts [("axis", a)]) k = objGet opts k := by
  rw [jsExtend_def, objGet, objGetD_append]
  by_cases ha : a = JsValue.undef
  · simp [List.filter, ha, objGetD, objGet]
  · have hfil : ([("axis", a)] : JsObj).filter (fun kv => decide (kv.2 ≠ JsValue.undef)) =
        [("axis", a)] := by
      simp [List.filter, ha]
    rw [hfil]
    show (if "axis" = k then a else objGetD opts k JsValue.undef) = _
    rw [if_neg (fun hc => hk hc.symm)]
    rfl

theorem getScrollMode_extend_axis (opts : JsObj) (a : JsValue) :
    getScrollMode (jsExtend opts [("axis", a)]) = getScrollMode opts := by
  unfold getScrollMode
  rw [objGet_extend_other opts "append" a (by decide),
    objGet_extend_other opts "merge" a (by decide)]

/-! ## Claim C10 (amended) -/

/-- The clamp of the sentinel value `-999` is 0 on a non-negative range. -/
theorem limit_ignore_eq_zero (c : Container) (ax : String)
    (hmax : 0 ≤ getScrollMaximum c ax) :
    limitToScrollRange ((-999 : ℤ) : ℚ) c ax = 0 := by
  rw [limitToScrollRange_eq]
  have h1 : ((-999 : ℤ) : ℚ) ≤ getScrollMaximum c ax := le_trans (by norm_num) hmax
  rw [min_eq_left h1, max_eq_right (by norm_num)]

/-- C10 amended, part 1: under an explicit two-axis option, a hash entry
explicitly set to the `IGNORE_AXIS` sentinel is treated as the number
`-999` and clamps to 0 — it does NOT inherit from the queue, in any mode. -/
theorem c10_explicit_sentinel_clamps (c : Container) (snap : Snapshot) (opts : JsObj)
    (posHash : JsObj) (coords : Coordinates)
    (hboth : objGet opts "axis" = JsValue.str norm.BOTH_AXES)
    (hmax : 0 ≤ getScrollMaximum c norm.VERTICAL)
    (hsent : objGet (normalizeAxisProperty posHash) norm.VERTICAL =
      JsValue.num norm.IGNORE_AXIS)
    (hok : normalizePosition (Position.hash posHash) c snap opts = Except.ok coords) :
    coords.vertical = 0 := by
  have hneqV : ¬ objGet opts "axis" = JsValue.str norm.VERTICAL := by
    rw [hboth]; simp [norm.BOTH_AXES, norm.VERTICAL]
  have hneqH : ¬ objGet opts "axis" = JsValue.str norm.HORIZONTAL := by
    rw [hboth]; simp [norm.BOTH_AXES, norm.HORIZONTAL]
  replace hok : normalizePositionForHash posHash c opts snap = Except.ok coords := hok
  rw [normalizePositionForHash_def, if_neg hneqV, if_neg hneqH] at hok
  have haxY : objGet (jsExtend opts [("axis", JsValue.str norm.VERTICAL)]) "axis" =
      JsValue.str norm.VERTICAL := objGet_extend_self opts _ (by decide)
  have hY : normalizePositionForAxis (objGet (normalizeAxisProperty posHash) norm.VERTICAL) c
      (jsExtend opts [("axis", JsValue.str norm.VERTICAL)]) snap =
      Except.ok (mkPair norm.VERTICAL
        (limitToScrollRange ((jsRound (0 + 1 * norm.IGNORE_AXIS) : ℤ) : ℚ) c norm.VERTICAL)) := by
    rw [hsent, normalizePositionForAxis_eq _ _ _ _ norm.VERTICAL haxY (Or.inr rfl)]
    rfl
  rw [hY] at hok
  rcases hX : normalizePositionForAxis (objGet (normalizeAxisProperty posHash) norm.HORIZONTAL) c
      (jsExtend opts [("axis", JsValue.str norm.HORIZONTAL)]) snap with e | r
  · rw [hX] at hok
    exact absurd hok (by simp)
  · rw [hX] at hok
    simp only [Except.ok.injEq] at hok
    rw [← hok]
    show (mkPair norm.VERTICAL
      (limitToScrollRange ((jsRound (0 + 1 * norm.IGNORE_AXIS) : ℤ) : ℚ) c norm.VERTICAL)).vertical
      = 0
    have hr : jsRound (0 + 1 * norm.IGNORE_AXIS) = -999 := by with_unfolding_all decide
    rw [hr]
    show limitToScrollRange ((-999 : ℤ) : ℚ) c norm.VERTICAL = 0
    exact limit_ignore_eq_zero c norm.VERTICAL hmax

/-- C10 amended, part 2: under the same two-axis option in merge mode, an
axis omitted from the hash DOES inherit the axis's last queued target. -/
theorem c10_omitted_axis_inherits (c : Container) (snap : Snapshot) (opts : JsObj)
    (posHash : JsObj) (coords : Coordinates)
    (hboth : objGet opts "axis" = JsValue.str norm.BOTH_AXES)
    (homit : objGet (normalizeAxisProperty posHash) norm.VERTICAL = JsValue.undef)
    (hmode : getScrollMode opts = norm.MODE_MERGE)
    (hok : normalizePosition (Position.hash posHash) c snap opts = Except.ok coords) :
    coords.vertical = getLastPositionInfo snap norm.VERTICAL := by
  have hneqV : ¬ objGet opts "axis" = JsValue.str norm.VERTICAL := by
    rw [hboth]; simp [norm.BOTH_AXES, norm.VERTICAL]
  have hneqH : ¬ objGet opts "axis" = JsValue.str norm.HORIZONTAL := by
    rw [hboth]; simp [norm.BOTH_AXES, norm.HORIZONTAL]
  replace hok : normalizePositionForHash posHash c opts snap = Except.ok coords := hok
  rw [normalizePositionForHash_def, if_neg hneqV, if_neg hneqH] at hok
  have haxY : objGet (jsExtend opts [("axis", JsValue.str norm.VERTICAL)]) "axis" =
      JsValue.str norm.VERTICAL := objGet_extend_self opts _ (by decide)
  have hmodeY : getScrollMode (jsExtend opts [("axis", JsValue.str norm.VERTICAL)]) =
      norm.MODE_MERGE := (getScrollMode_extend_axis opts _).trans hmode
  have hY : normalizePositionForAxis (objGet (normalizeAxisProperty posHash) norm.VERTICAL) c
      (jsExtend opts [("axis", JsValue.str norm.VERTICAL)]) snap =
      Except.ok (mkPair norm.VERTICAL (getLastPositionInfo snap norm.VERTICAL)) := by
    rw [homit, normalizePositionForAxis_eq _ _ _ _ norm.VERTICAL haxY (Or.inr rfl)]
    show numericFinish norm.VERTICAL _ c snap JsValue.undef (0, 1, JsValue.undef) = _
    simp only [numericFinish, isUndefinedPositionValue, if_pos, hmodeY]
  rw [hY] at hok
  rcases hX : normalizePositionForAxis (objGet (normalizeAxisProperty posHash) norm.HORIZONTAL) c
      (jsExtend opts [("axis", JsValue.str norm.HORIZONTAL)]) snap with e | r
  · rw [hX] at hok
    exact absurd hok (by simp)
  · rw [hX] at hok
    simp only [Except.ok.injEq] at hok
    rw [← hok]
    rfl

/-- C10 amended, part 3: through the full pipeline with options derived by
`normalizeOptions` (no explicit axis), a hash with an explicit
`IGNORE_AXIS` vertical entry and a hash omitting the vertical axis resolve
identically — both exclude the vertical axis from the derived axis intent
and inherit it from the queue in merge mode. -/
theorem c10_derived_options_equiv (c : Container) (snap : Snapshot) (hq : ℚ)
    (hne : hq ≠ norm.IGNORE_AXIS) :
    normalizePosition
        (Position.hash [("vertical", JsValue.num norm.IGNORE_AXIS), ("horizontal", JsValue.num hq)])
        c snap
        (normalizeOptions (some [("merge", JsValue.boolean true)])
          (Position.hash
            [("vertical", JsValue.num norm.IGNORE_AXIS), ("horizontal", JsValue.num hq)])) =
      normalizePosition (Position.hash [("horizontal", JsValue.num hq)]) c snap
        (normalizeOptions (some [("merge", JsValue.boolean true)])
          (Position.hash [("horizontal", JsValue.num hq)])) := by
  have hup1 : normalizeAxisProperty
      [("vertical", JsValue.num norm.IGNORE_AXIS), ("horizontal", JsValue.num hq)] =
      [("vertical", JsValue.num norm.IGNORE_AXIS), ("horizontal", JsValue.num hq)] := by
    with_unfolding_all rfl
  have hup2 : normalizeAxisProperty [("horizontal", JsValue.num hq)] =
      [("horizontal", JsValue.num hq)] := by
    with_unfolding_all rfl
  have hg1V : objGet
      ([("vertical", JsValue.num norm.IGNORE_AXIS), ("horizontal", JsValue.num hq)] : JsObj)
      norm.VERTICAL = JsValue.num norm.IGNORE_AXIS := by
    with_unfolding_all rfl
  have hg1H : objGet
      ([("vertical", JsValue.num norm.IGNORE_AXIS), ("horizontal", JsValue.num hq)] : JsObj)
      norm.HORIZONTAL = JsValue.num hq := by
    with_unfolding_all rfl
  have hg2V : objGet ([("horizontal", JsValue.num hq)] : JsObj) norm.VERTICAL =
      JsValue.undef := by
    with_unfolding_all rfl
  have hg2H : objGet ([("horizontal", JsValue.num hq)] : JsObj) norm.HORIZONTAL =
      JsValue.num hq := by
    with_unfolding_all rfl
  have hasX : ¬ (isUndefinedPositionValue (JsValue.num hq) = true) ∧
      JsValue.num hq ≠ JsValue.num norm.IGNORE_AXIS :=
    ⟨by simp [isUndefinedPositionValue], fun hc => hne (JsValue.num.inj hc)⟩
  have hd1 : specDerivedAxis
      (Position.hash
        [("vertical", JsValue.num norm.IGNORE_AXIS), ("horizontal", JsValue.num hq)]) =
      norm.HORIZONTAL := by
    simp only [specDerivedAxis, hup1, hg1V, hg1H]
    have hB : ¬ (¬ (isUndefinedPositionValue (JsValue.num norm.IGNORE_AXIS) = true) ∧
        JsValue.num norm.IGNORE_AXIS ≠ JsValue.num norm.IGNORE_AXIS) := fun hB => hB.2 rfl
    rw [if_neg (fun hc => hB hc.2), if_pos ⟨hasX, hB⟩]
  have hd2 : specDerivedAxis (Position.hash [("horizontal", JsValue.num hq)]) =
      norm.HORIZONTAL := by
    simp only [specDerivedAxis, hup2, hg2V, hg2H]
    have hB : ¬ (¬ (isUndefinedPositionValue JsValue.undef = true) ∧
        JsValue.undef ≠ JsValue.num norm.IGNORE_AXIS) := fun hB => hB.1 rfl
    rw [if_neg (fun hc => hB hc.2), if_pos ⟨hasX, hB⟩]
  rw [normalizeOptions_eq, normalizeOptions_eq, hd1, hd2]
  simp only [normalizePosition]
  have hax : objGet (jsExtend (jsExtend norm.defaults [("axis", JsValue.str norm.HORIZONTAL)])
      (normalizeAxisProperty [("merge", JsValue.boolean true)])) "axis" =
      JsValue.str norm.HORIZONTAL := by
    with_unfolding_all decide
  have hneqV : ¬ objGet (jsExtend (jsExtend norm.defaults
      [("axis", JsValue.str norm.HORIZONTAL)])
      (normalizeAxisProperty [("merge", JsValue.boolean true)])) "axis" =
      JsValue.str norm.VERTICAL := by
    with_unfolding_all decide
  rw [normalizePositionForHash_def, normalizePositionForHash_def,
    if_neg hneqV, if_neg hneqV, if_pos hax, if_pos hax, hup1, hup2, hg1H, hg2H]

/-- C10 amended, part 4: when the options' axis excludes the vertical axis,
the vertical hash entry is never read, so any two hashes agreeing on their
(canonicalized) horizontal entry — in particular one carrying an explicit
`IGNORE_AXIS` vertical entry and one omitting the vertical axis — resolve
identically, whatever the mode. -/
theorem c10_excluded_axis_entry_unread (c : Container) (snap : Snapshot) (opts h1 h2 : JsObj)
    (hax : objGet opts "axis" = JsValue.str norm.HORIZONTAL)
    (hagree : objGet (normalizeAxisProperty h1) norm.HORIZONTAL =
      objGet (normalizeAxisProperty h2) norm.HORIZONTAL) :
    normalizePosition (Position.hash h1) c snap opts =
      normalizePosition (Position.hash h2) c snap opts := by
  have hneqV : ¬ objGet opts "axis" = JsValue.str norm.VERTICAL := by
    rw [hax]
    simp [norm.VERTICAL, norm.HORIZONTAL]
  show normalizePositionForHash h1 c opts snap = normalizePositionForHash h2 c opts snap
  rw [normalizePositionForHash_def, normalizePositionForHash_def,
    if_neg hneqV, if_neg hneqV, if_pos hax, if_pos hax, hagree]

/-- C10 amended: in merge mode, explicit `IGNORE_AXIS` and omission are not
generally identical.  When the options' axis includes the axis (an explicit
two-axis option), the sentinel is treated as the number `-999` and clamps
to 0 while the omitted axis inherits the last queued target, so the two
differ whenever that target is not 0.  When the options' axis excludes the
axis, its hash entry is never read, so the two forms resolve identically —
as happens in particular when the options are derived from the hash by
`normalizeOptions`, which excludes the sentinel axis from the axis
intent. -/
theorem c10_amended_sentinel_vs_omission :
    (∀ (c : Container) (snap : Snapshot) (opts posHash : JsObj) (coords : Coordinates),
      objGet opts "axis" = JsValue.str norm.BOTH_AXES →
      0 ≤ getScrollMaximum c norm.VERTICAL →
      objGet (normalizeAxisProperty posHash) norm.VERTICAL = JsValue.num norm.IGNORE_AXIS →
      normalizePosition (Position.hash posHash) c snap opts = Except.ok coords →
      coords.vertical = 0) ∧
    (∀ (c : Container) (snap : Snapshot) (opts posHash : JsObj) (coords : Coordinates),
      objGet opts "axis" = JsValue.str norm.BOTH_AXES →
      objGet (normalizeAxisProperty posHash) norm.VERTICAL = JsValue.undef →
      getScrollMode opts = norm.MODE_MERGE →
      normalizePosition (Position.hash posHash) c snap opts = Except.ok coords →
      coords.vertical = getLastPositionInfo snap norm.VERTICAL) ∧
    (∀ (c : Container) (snap : Snapshot) (opts h1 h2 : JsObj),
      objGet opts "axis" = JsValue.str norm.HORIZONTAL →
      objGet (normalizeAxisProperty h1) norm.HORIZONTAL =
        objGet (normalizeAxisProperty h2) norm.HORIZONTAL →
      normalizePosition (Position.hash h1) c snap opts =
        normalizePosition (Position.hash h2) c snap opts) ∧
    (∀ (c : Container) (snap : Snapshot) (hq : ℚ), hq ≠ norm.IGNORE_AXIS →
      normalizePosition
          (Position.hash
            [("vertical", JsValue.num norm.IGNORE_AXIS), ("horizontal", JsValue.num hq)])
          c snap
          (normalizeOptions (some [("merge", JsValue.boolean true)])
            (Position.hash
              [("vertical", JsValue.num norm.IGNORE_AXIS), ("horizontal", JsValue.num hq)])) =
        normalizePosition (Position.hash [("horizontal", JsValue.num hq)]) c snap
          (normalizeOptions (some [("merge", JsValue.boolean true)])
            (Position.hash [("horizontal", JsValue.num hq)]))) :=
  ⟨fun c snap opts posHash coords h1 h2 h3 h4 =>
      c10_explicit_sentinel_clamps c snap opts posHash coords h1 h2 h3 h4,
    fun c snap opts posHash coords h1 h2 h3 h4 =>
      c10_omitted_axis_inherits c snap opts posHash coords h1 h2 h3 h4,
    fun c snap opts h1 h2 hax hagree =>
      c10_excluded_axis_entry_unread c snap opts h1 h2 hax hagree,
    fun c snap hq hne => c10_derived_options_equiv c snap hq hne⟩

/-- Counterexample to C10 as stated: in merge mode with an explicit two-axis
option and queued vertical target 50, the hash `{vertical: IGNORE_AXIS,
horizontal: 10}` resolves vertical to 0 (clamped sentinel) while
`{horizontal: 10}` resolves vertical to 50 (inherited) — explicit sentinel
and omission are not treated identically. -/
theorem c10_counterexample :
    normalizePosition
        (Position.hash [("vertical", JsValue.num norm.IGNORE_AXIS), ("horizontal", JsValue.num 10)])
        ⟨0, 0, 100, 100⟩ [some ⟨none, some 50⟩]
        [("axis", JsValue.str norm.BOTH_AXES), ("merge", JsValue.boolean true)] =
      Except.ok ⟨10, 0⟩ ∧
    normalizePosition (Position.hash [("horizontal", JsValue.num 10)]) ⟨0, 0, 100, 100⟩
        [some ⟨none, some 50⟩]
        [("axis", JsValue.str norm.BOTH_AXES), ("merge", JsValue.boolean true)] =
      Except.ok ⟨10, 50⟩ ∧
    getScrollMode [("axis", JsValue.str norm.BOTH_AXES), ("merge", JsValue.boolean true)] =
      norm.MODE_MERGE ∧
    getLastPositionInfo [some ⟨none, some 50⟩] norm.VERTICAL = 50 ∧
    (0 : ℚ) ≠ 50 :=
  ⟨by with_unfolding_all decide, by with_unfolding_all decide, by with_unfolding_all decide,
    by with_unfolding_all decide, by with_unfolding_all decide⟩

/-- Witness for the amended C10 at the counterexample's inputs. -/
theorem c10_witness :
    objGet ([("axis", JsValue.str norm.BOTH_AXES), ("merge", JsValue.boolean true)] : JsObj)
        "axis" = JsValue.str norm.BOTH_AXES ∧
    (0 : ℚ) ≤ getScrollMaximum ⟨0, 0, 100, 100⟩ norm.VERTICAL ∧
    objGet (normalizeAxisProperty
        [("vertical", JsValue.num norm.IGNORE_AXIS), ("horizontal", JsValue.num 10)])
        norm.VERTICAL = JsValue.num norm.IGNORE_AXIS ∧
    Coordinates.vertical ⟨10, 0⟩ = 0 ∧
    (objGet ([("axis", JsValue.str norm.HORIZONTAL), ("merge", JsValue.boolean true)] : JsObj)
        "axis" = JsValue.str norm.HORIZONTAL ∧
      normalizePosition
          (Position.hash
            [("vertical", JsValue.num norm.IGNORE_AXIS), ("horizontal", JsValue.num 10)])
          ⟨0, 0, 100, 100⟩ [some ⟨none, some 50⟩]
          [("axis", JsValue.str norm.HORIZONTAL), ("merge", JsValue.boolean true)] =
        normalizePosition (Position.hash [("horizontal", JsValue.num 10)]) ⟨0, 0, 100, 100⟩
          [some ⟨none, some 50⟩]
          [("axis", JsValue.str norm.HORIZONTAL), ("merge", JsValue.boolean true)]) :=
  ⟨by with_unfolding_all decide, by with_unfolding_all decide, by with_unfolding_all decide,
    c10_amended_sentinel_vs_omission.1 ⟨0, 0, 100, 100⟩ [some ⟨none, some 50⟩]
      [("axis", JsValue.str norm.BOTH_AXES), ("merge", JsValue.boolean true)]
      [("vertical", JsValue.num norm.IGNORE_AXIS), ("horizontal", JsValue.num 10)] ⟨10, 0⟩
      (by with_unfolding_all decide) (by with_unfolding_all decide)
      (by with_unfolding_all decide) (by with_unfolding_all decide),
    by with_unfolding_all decide,
    c10_amended_sentinel_vs_omission.2.2.1 ⟨0, 0, 100, 100⟩ [some ⟨none, some 50⟩]
      [("axis", JsValue.str norm.HORIZONTAL), ("merge", JsValue.boolean true)]
      [("vertical", JsValue.num norm.IGNORE_AXIS), ("horizontal", JsValue.num 10)]
      [("horizontal", JsValue.num 10)]
      (by with_unfolding_all decide) (by with_unfolding_all decide)⟩

/-! ## Claim C5 (amended) -/

theorem getScrollMaximum_H (c : Container) : getScrollMaximum c norm.HORIZONTAL = c.maxH :=
  if_pos rfl

theorem getScrollMaximum_V (c : Container) : getScrollMaximum c norm.VERTICAL = c.maxV :=
  if_neg vertical_ne_horizontal

theorem validSlot_ignore (mx : ℚ) : validSlot norm.IGNORE_AXIS mx := Or.inl rfl

/-- A range-limited integer is a lawful slot for a non-negative integer
maximum. -/
theorem validSlot_limit (k : ℤ) (mx : ℚ) (m : ℕ) (hm : mx = (m : ℚ)) :
    validSlot (jsMax (jsMin ((k : ℤ) : ℚ) mx) 0) mx := by
  rw [jsMin_eq_min, jsMax_eq_max, hm]
  refine Or.inr ⟨⟨max (min k (m : ℤ)) 0, ?_⟩, le_max_right _ _, ?_⟩
  · push_cast
    rfl
  · exact max_le (min_le_right _ _) (by positivity)

/-- Zeta-reduced restatement of `normalizePositionForAxis` for rewriting. -/
theorem normalizePositionForAxis_def (position : JsValue) (c : Container) (options : JsObj)
    (snap : Snapshot) :
    normalizePositionForAxis position c options snap =
      (if objGet options "axis" = JsValue.str norm.HORIZONTAL ∨
          objGet options "axis" = JsValue.str norm.VERTICAL then
        match stringStep position c snap
            (if objGet options "axis" = JsValue.str norm.HORIZONTAL then norm.HORIZONTAL
             else norm.VERTICAL) (getScrollMode options) with
        | Except.error e => Except.error e
        | Except.ok t =>
          numericFinish
            (if objGet options "axis" = JsValue.str norm.HORIZONTAL then norm.HORIZONTAL
             else norm.VERTICAL) (getScrollMode options) c snap position t
      else Except.error (NormError.ambiguousAxis (objGet options "axis"))) := rfl

/-- The queue-inheritance fold preserves slot validity. -/
theorem foldl_lastPosStep_valid (c : Container) :
    ∀ snap : Snapshot, validSnapshot snap c → ∀ acc : Coordinates,
      validSlot acc.horizontal c.maxH → validSlot acc.vertical c.maxV →
      validSlot (List.foldl lastPosStep acc snap).horizontal c.maxH ∧
        validSlot (List.foldl lastPosStep acc snap).vertical c.maxV := by
  intro snap
  induction snap with
  | nil => intro _ acc h1 h2; exact ⟨h1, h2⟩
  | cons e rest ih =>
    intro hsnap acc h1 h2
    have hrest : validSnapshot rest c := fun x hx => hsnap x (List.mem_cons_of_mem _ hx)
    have hstep : validSlot (lastPosStep acc e).horizontal c.maxH ∧
        validSlot (lastPosStep acc e).vertical c.maxV := by
      cases e with
      | none => exact ⟨h1, h2⟩
      | some pc =>
        obtain ⟨hpcH, hpcV⟩ := hsnap (some pc) (List.mem_cons_self _ _) pc rfl
        rcases pc with ⟨ox, oy⟩
        cases ox with
        | none =>
          cases oy with
          | none => exact ⟨h1, h2⟩
          | some qy =>
            simp only [lastPosStep]
            split_ifs
            · exact ⟨h1, hpcV qy rfl⟩
            · exact ⟨h1, h2⟩
        | some qx =>
          cases oy with
          | none =>
            simp only [lastPosStep]
            split_ifs
            · exact ⟨hpcH qx rfl, h2⟩
            · exact ⟨h1, h2⟩
          | some qy =>
            simp only [lastPosStep]
            split_ifs
            · exact ⟨hpcH qx rfl, hpcV qy rfl⟩
            · exact ⟨h1, hpcV qy rfl⟩
            · exact ⟨hpcH qx rfl, h2⟩
            · exact ⟨h1, h2⟩
    rw [List.foldl_cons]
    exact ih hrest (lastPosStep acc e) hstep.1 hstep.2

/-- On a lawful snapshot both last-queued targets are lawful slots. -/
theorem getLastPositionInfo_valid (snap : Snapshot) (c : Container)
    (hq : validSnapshot snap c) :
    validSlot (getLastPositionInfo snap norm.HORIZONTAL) c.maxH ∧
      validSlot (getLastPositionInfo snap norm.VERTICAL) c.maxV := by
  have h := foldl_lastPosStep_valid c snap hq ⟨norm.IGNORE_AXIS, norm.IGNORE_AXIS⟩
    (validSlot_ignore _) (validSlot_ignore _)
  constructor
  · show validSlot (getCoord (getLastPositionInfoBoth snap) norm.HORIZONTAL) c.maxH
    rw [getCoord, if_pos rfl]
    exact h.1
  · show validSlot (getCoord (getLastPositionInfoBoth snap) norm.VERTICAL) c.maxV
    rw [getCoord, if_neg vertical_ne_horizontal]
    exact h.2

/-- A single-axis pair has lawful slots when its addressed-axis value does. -/
theorem mkPair_valid (ax : String) (haxor : ax = norm.HORIZONTAL ∨ ax = norm.VERTICAL)
    (c : Container) (val : ℚ)
    (hH : ax = norm.HORIZONTAL → validSlot val c.maxH)
    (hV : ax = norm.VERTICAL → validSlot val c.maxV) :
    validSlot (mkPair ax val).horizontal c.maxH ∧ validSlot (mkPair ax val).vertical c.maxV := by
  rcases haxor with rfl | rfl
  · rw [mkPair, if_pos rfl]
    exact ⟨hH rfl, validSlot_ignore _⟩
  · rw [mkPair, if_neg vertical_ne_horizontal]
    exact ⟨validSlot_ignore _, hV rfl⟩

/-- The undefined-like branch of the finishing phase produces lawful
slots. -/
theorem numericFinish_undef_valid (ax mode : String) (c : Container) (snap : Snapshot)
    (orig : JsValue) (hq : validSnapshot snap c)
    (haxor : ax = norm.HORIZONTAL ∨ ax = norm.VERTICAL) (pv : JsValue)
    (coords : Coordinates)
    (hok : (if isUndefinedPositionValue pv = true then
        Except.ok (mkPair ax
          (if mode = norm.MODE_MERGE then getLastPositionInfo snap ax else norm.IGNORE_AXIS))
      else Except.error (NormError.invalidPositionValue orig)) = Except.ok coords) :
    validSlot coords.horizontal c.maxH ∧ validSlot coords.vertical c.maxV := by
  by_cases hu : isUndefinedPositionValue pv = true
  · rw [if_pos hu] at hok
    simp only [Except.ok.injEq] at hok
    rw [← hok]
    apply mkPair_valid ax haxor c
    · rintro rfl
      split_ifs
      · exact (getLastPositionInfo_valid snap c hq).1
      · exact validSlot_ignore _
    · rintro rfl
      split_ifs
      · exact (getLastPositionInfo_valid snap c hq).2
      · exact validSlot_ignore _
  · rw [if_neg hu] at hok
    exact absurd hok (by simp)

/-- The finishing phase of the single-axis resolver only produces lawful
slots. -/
theorem numericFinish_valid (ax mode : String) (c : Container) (snap : Snapshot)
    (orig : JsValue) (t : ℚ × ℚ × JsValue) (mh mv : ℕ)
    (hmh : c.maxH = (mh : ℚ)) (hmv : c.maxV = (mv : ℚ)) (hq : validSnapshot snap c)
    (haxor : ax = norm.HORIZONTAL ∨ ax = norm.VERTICAL) :
    ∀ coords, numericFinish ax mode c snap orig t = Except.ok coords →
      validSlot coords.horizontal c.maxH ∧ validSlot coords.vertical c.maxV := by
  obtain ⟨base, sign, pv⟩ := t
  intro coords hok
  rcases pv with q | s | b | _ | _ | _
  case num =>
    simp only [numericFinish, Except.ok.injEq] at hok
    rw [← hok]
    apply mkPair_valid ax haxor c
    · rintro rfl
      show validSlot (jsMax (jsMin ((jsRound (base + sign * q) : ℤ) : ℚ)
        (getScrollMaximum c norm.HORIZONTAL)) 0) c.maxH
      rw [getScrollMaximum_H]
      exact validSlot_limit _ _ mh hmh
    · rintro rfl
      show validSlot (jsMax (jsMin ((jsRound (base + sign * q) : ℤ) : ℚ)
        (getScrollMaximum c norm.VERTICAL)) 0) c.maxV
      rw [getScrollMaximum_V]
      exact validSlot_limit _ _ mv hmv
  case str =>
    exact numericFinish_undef_valid ax mode c snap orig hq haxor (JsValue.str s) coords hok
  case boolean =>
    exact numericFinish_undef_valid ax mode c snap orig hq haxor (JsValue.boolean b) coords hok
  case undef =>
    exact numericFinish_undef_valid ax mode c snap orig hq haxor JsValue.undef coords hok
  case null =>
    exact numericFinish_undef_valid ax mode c snap orig hq haxor JsValue.null coords hok
  case nan =>
    exact numericFinish_undef_valid ax mode c snap orig hq haxor JsValue.nan coords hok

/-- The single-axis resolver only returns lawful slots. -/
theorem normalizePositionForAxis_valid (v : JsValue) (c : Container) (options : JsObj)
    (snap : Snapshot) (mh mv : ℕ) (hmh : c.maxH = (mh : ℚ)) (hmv : c.maxV = (mv : ℚ))
    (hq : validSnapshot snap c) :
    ∀ coords, normalizePositionForAxis v c options snap = Except.ok coords →
      validSlot coords.horizontal c.maxH ∧ validSlot coords.vertical c.maxV := by
  intro coords hok
  rw [normalizePositionForAxis_def] at hok
  by_cases hax : objGet options "axis" = JsValue.str norm.HORIZONTAL ∨
      objGet options "axis" = JsValue.str norm.VERTICAL
  · rw [if_pos hax] at hok
    have haxor : (if objGet options "axis" = JsValue.str norm.HORIZONTAL then norm.HORIZONTAL
        else norm.VERTICAL) = norm.HORIZONTAL ∨
        (if objGet options "axis" = JsValue.str norm.HORIZONTAL then norm.HORIZONTAL
        else norm.VERTICAL) = norm.VERTICAL := by
      split_ifs
      · exact Or.inl rfl
      · exact Or.inr rfl
    rcases hss : stringStep v c snap
        (if objGet options "axis" = JsValue.str norm.HORIZONTAL then norm.HORIZONTAL
         else norm.VERTICAL) (getScrollMode options) with e | t
    · rw [hss] at hok
      exact absurd hok (by simp)
    · rw [hss] at hok
      exact numericFinish_valid _ _ c snap v t mh mv hmh hmv hq haxor coords hok
  · rw [if_neg hax] at hok
    exact absurd hok (by simp)

/-- The hash resolver only returns lawful slots. -/
theorem normalizePositionForHash_valid (h : JsObj) (c : Container) (options : JsObj)
    (snap : Snapshot) (mh mv : ℕ) (hmh : c.maxH = (mh : ℚ)) (hmv : c.maxV = (mv : ℚ))
    (hq : validSnapshot snap c) :
    ∀ coords, normalizePositionForHash h c options snap = Except.ok coords →
      validSlot coords.horizontal c.maxH ∧ validSlot coords.vertical c.maxV := by
  intro coords hok
  rw [normalizePositionForHash_def] at hok
  by_cases higX : objGet options "axis" = JsValue.str norm.VERTICAL
  · rw [if_pos higX] at hok
    have higY : ¬ objGet options "axis" = JsValue.str norm.HORIZONTAL := by
      rw [higX]
      simp [norm.VERTICAL, norm.HORIZONTAL]
    rw [if_neg higY] at hok
    rcases hpy : normalizePositionForAxis (objGet (normalizeAxisProperty h) norm.VERTICAL) c
        (jsExtend options [("axis", JsValue.str norm.VERTICAL)]) snap with e | r
    · rw [hpy] at hok
      exact absurd hok (by simp)
    · rw [hpy] at hok
      simp only [Except.ok.injEq] at hok
      rw [← hok]
      constructor
      · show validSlot (if truthy (objGet options "merge") then
          getLastPositionInfo snap norm.HORIZONTAL else norm.IGNORE_AXIS) c.maxH
        split_ifs
        · exact (getLastPositionInfo_valid snap c hq).1
        · exact validSlot_ignore _
      · show validSlot r.vertical c.maxV
        exact (normalizePositionForAxis_valid _ c _ snap mh mv hmh hmv hq r hpy).2
  · rw [if_neg higX] at hok
    rcases hpx : normalizePositionForAxis (objGet (normalizeAxisProperty h) norm.HORIZONTAL) c
        (jsExtend options [("axis", JsValue.str norm.HORIZONTAL)]) snap with e | rX
    · rw [hpx] at hok
      exact absurd hok (by simp)
    · rw [hpx] at hok
      by_cases higY : objGet options "axis" = JsValue.str norm.HORIZONTAL
      · rw [if_pos higY] at hok
        simp only [Except.ok.injEq] at hok
        rw [← hok]
        refine ⟨(normalizePositionForAxis_valid _ c _ snap mh mv hmh hmv hq rX hpx).1, ?_⟩
        show validSlot (if truthy (objGet options "merge") then
          getLastPositionInfo snap norm.VERTICAL else norm.IGNORE_AXIS) c.maxV
        split_ifs
        · exact (getLastPositionInfo_valid snap c hq).2
        · exact validSlot_ignore _
      · rw [if_neg higY] at hok
        rcases hpy : normalizePositionForAxis (objGet (normalizeAxisProperty h) norm.VERTICAL) c
            (jsExtend options [("axis", JsValue.str norm.VERTICAL)]) snap with e | rY
        · rw [hpy] at hok
          exact absurd hok (by simp)
        · rw [hpy] at hok
          simp only [Except.ok.injEq] at hok
          rw [← hok]
          exact ⟨(normalizePositionForAxis_valid _ c _ snap mh mv hmh hmv hq rX hpx).1,
            (normalizePositionForAxis_valid _ c _ snap mh mv hmh hmv hq rY hpy).2⟩

/-- C5 amended: whenever `resolvePosition` returns without error — with the
container maxima non-negative integers, the live positions integers, and
every queue-snapshot slot lawful (the `QueueSnapshot` entries are partial
`ResolvedCoordinates`) — each slot of the returned pair is `IGNORE_AXIS` or
an integer within `[0, max]` for its axis. -/
theorem c5_amended_result_range (position : Position) (c : Container) (snap : Snapshot)
    (opts : JsObj) (mh mv : ℕ)
    (hmh : c.maxH = (mh : ℚ)) (hmv : c.maxV = (mv : ℚ))
    (hcurH : ∃ k : ℤ, c.scrollLeft = (k : ℚ)) (hcurV : ∃ k : ℤ, c.scrollTop = (k : ℚ))
    (hq : validSnapshot snap c) :
    ∀ coords, normalizePosition position c snap opts = Except.ok coords →
      validSlot coords.horizontal c.maxH ∧ validSlot coords.vertical c.maxV := by
  intro coords hok
  cases position with
  | prim v => exact normalizePositionForAxis_valid v c opts snap mh mv hmh hmv hq coords hok
  | hash h => exact normalizePositionForHash_valid h c opts snap mh mv hmh hmv hq coords hok

/-- Counterexample to C5 as stated (without a queue hypothesis): a queued
target of 500 is inherited verbatim in merge mode and lands outside
`[0, 100]`. -/
theorem c5_counterexample :
    normalizePosition (Position.prim JsValue.undef) ⟨0, 0, 100, 100⟩ [some ⟨none, some 500⟩]
        [("axis", JsValue.str norm.VERTICAL), ("merge", JsValue.boolean true)] =
      Except.ok ⟨norm.IGNORE_AXIS, 500⟩ ∧
    Container.maxV ⟨0, 0, 100, 100⟩ = ((100 : ℕ) : ℚ) ∧
    ¬ validSlot 500 (Container.maxV ⟨0, 0, 100, 100⟩) := by
  refine ⟨by with_unfolding_all decide, by with_unfolding_all decide, ?_⟩
  intro hv
  rcases hv with hs | ⟨_, _, hle⟩
  · exact absurd hs (by with_unfolding_all decide)
  · revert hle
    show (500 : ℚ) ≤ 100 → False
    norm_num

/-- Witness for the amended C5 at a lawful snapshot `[{vertical: 50}]`. -/
theorem c5_witness :
    Container.maxH (⟨0, 0, 100, 100⟩ : Container) = ((100 : ℕ) : ℚ) ∧
    validSnapshot [some ⟨none, some 50⟩] ⟨0, 0, 100, 100⟩ ∧
    validSlot (Coordinates.horizontal ⟨norm.IGNORE_AXIS, 50⟩)
      (Container.maxH (⟨0, 0, 100, 100⟩ : Container)) ∧
    validSlot (Coordinates.vertical ⟨norm.IGNORE_AXIS, 50⟩)
      (Container.maxV (⟨0, 0, 100, 100⟩ : Container)) := by
  have hsnap : validSnapshot [some ⟨none, some 50⟩] ⟨0, 0, 100, 100⟩ := by
    intro e he pc hpc
    simp only [List.mem_singleton] at he
    subst he
    have hpc2 := Option.some.inj hpc
    rw [← hpc2]
    constructor
    · intro q hq0
      exact absurd hq0 (by simp)
    · intro q hq0
      rw [← Option.some.inj hq0]
      refine Or.inr ⟨⟨50, by norm_num⟩, by norm_num, ?_⟩
      show (50 : ℚ) ≤ 100
      norm_num
  have hmain := c5_amended_result_range (Position.prim JsValue.undef) ⟨0, 0, 100, 100⟩
    [some ⟨none, some 50⟩]
    [("axis", JsValue.str norm.VERTICAL), ("merge", JsValue.boolean true)] 100 100
    (by norm_num) (by norm_num) ⟨0, by norm_num⟩ ⟨0, by norm_num⟩ hsnap
    ⟨norm.IGNORE_AXIS, 50⟩ (by with_unfolding_all decide)
  exact ⟨by norm_num, hsnap, hmain.1, hmain.2⟩

